import Mathlib

/-!
# libsel4utils thread management: a shallow embedding of `thread.c`

The C functions of `libsel4utils/src/thread.c` are embedded as Lean functions
over an explicit world.  Everything the file calls but does not define (the
allocator `vka`, the address-space manager `vspace`, the kernel invocations,
the architecture helpers, `malloc`/`free`) is a field of `Env`, an arbitrary
state transformer over an abstract state `σ`.  Every such call is also appended
to a trace, with its arguments and its results, so that "issues exactly one
call" and "releases nothing" are statements about the trace.

Conventions:
* `seL4_Word`, `seL4_CPtr`, pointers and `uint8_t` values are `Nat`; `NULL` is `0`;
* C `int` results are `Int`;
* pointer subtraction on `uintptr_t` is taken modulo `2 ^ word_bits`;
* the byte memory read and written by `memcpy` is a function `Nat → Nat`,
  kept apart from `σ`.
-/

namespace Sel4Utils

/-! ## Data model -/

/-- The allocator's object record `vka_object_t`, declared outside `thread.c`.
`thread.c` uses its capability `cptr`; the other words of the record (`ut`,
`type`, `size_bits` in libsel4vka) are carried along, so that zeroing the
record says something about them too. -/
structure vka_object_t where
  cptr : Nat
  ut : Nat
  type : Nat
  size_bits : Nat
deriving DecidableEq, Repr

/-- The record `memset(&obj, 0, sizeof obj)` leaves. -/
def vka_object_t.zero : vka_object_t :=
  { cptr := 0, ut := 0, type := 0, size_bits := 0 }

/-- The thread record `sel4utils_thread_t` with the five fields `thread.c` uses. -/
structure sel4utils_thread_t where
  tcb : vka_object_t
  sched_context : vka_object_t
  stack_top : Nat
  ipc_buffer : Nat
  ipc_buffer_addr : Nat
deriving DecidableEq, Repr

/-- The record `memset(res, 0, sizeof(sel4utils_thread_t))` leaves. -/
def sel4utils_thread_t.zero : sel4utils_thread_t :=
  { tcb := vka_object_t.zero, sched_context := vka_object_t.zero,
    stack_top := 0, ipc_buffer := 0, ipc_buffer_addr := 0 }

/-- The caller-supplied configuration `sel4utils_thread_config_t`. -/
structure sel4utils_thread_config_t where
  fault_endpoint : Nat
  priority : Nat
  max_priority : Nat
  cspace : Nat
  cspace_root_data : Nat
  create_sc : Bool
  custom_sched_params : Bool
  custom_budget : Nat
deriving DecidableEq, Repr

/-- Modelled from the spec: the type `seL4_Prio_t` of libsel4, whose declaration
is not in `thread.c`; the spec calls it the priority pair (priority, max
priority), so it is the two values side by side. -/
structure seL4_Prio_t where
  prio : Nat
  mcp : Nat
deriving DecidableEq, Repr

/-- Modelled from the spec: the constructor `seL4_Prio_new(prio, mcp)` of
libsel4, not in `thread.c`; it pairs its two arguments as they are. -/
def seL4_Prio_new (prio mcp : Nat) : seL4_Prio_t := { prio := prio, mcp := mcp }

/-- A register set `seL4_UserContext`, as its list of words. -/
abbrev seL4_UserContext := List Nat

/-- A message tag `seL4_MessageInfo_t` with its four bit-fields. -/
structure seL4_MessageInfo_t where
  label : Nat
  capsUnwrapped : Nat
  extraCaps : Nat
  length : Nat
deriving DecidableEq, Repr

/-- The accessor `seL4_MessageInfo_get_label`. -/
def seL4_MessageInfo_get_label (tag : seL4_MessageInfo_t) : Nat := tag.label

/-- The accessor `seL4_MessageInfo_get_length`. -/
def seL4_MessageInfo_get_length (tag : seL4_MessageInfo_t) : Nat := tag.length

/-- The ten arguments of one `seL4_TCB_Configure` invocation, in order. -/
structure TCBConfigureArgs where
  service : Nat
  fault_ep : Nat
  prio : seL4_Prio_t
  sched_context : Nat
  cspace_root : Nat
  cspace_root_data : Nat
  vspace_root : Nat
  vspace_root_data : Nat
  buffer : Nat
  bufferFrame : Nat
deriving DecidableEq, Repr

/-- What one `printf` of `sel4utils_print_fault_message` renders: the category
(the constructor) and the values substituted into the format string. -/
inductive Diagnostic where
  | pagefault (thread_name : String) (is_read : Bool) (is_prefetch : Bool) (pc vaddr : Nat)
  | bad_syscall (thread_name : String) (scno pc : Nat)
  | invalid_instruction (thread_name : String) (pc : Nat)
  | unknown_fault (thread_name : String) (label length : Nat)
deriving DecidableEq, Repr

/-- One call that leaves `thread.c`, with its arguments and what it returned. -/
inductive Call where
  | vka_alloc_tcb (vka : Nat) (err : Int) (obj : vka_object_t)
  | vspace_new_ipc_buffer (vspace : Nat) (addr cap : Nat)
  | sel4utils_dup_and_map (vka vspace cap size_bits mapping : Nat)
  | store_userData (mapping value : Nat)
  | sel4utils_unmap_dup (vka vspace mapping size_bits : Nat)
  | vka_alloc_sched_context (vka : Nat) (err : Int) (obj : vka_object_t)
  | seL4_SchedControl_Configure (sched_ctrl sched_context budget : Nat) (err : Int)
  | seL4_TCB_Configure (args : TCBConfigureArgs) (err : Int)
  | vspace_new_stack (vspace : Nat) (top : Nat)
  | vka_free_object (vka : Nat) (obj : vka_object_t)
  | vspace_free_ipc_buffer (vspace : Nat) (addr : Nat)
  | vspace_free_stack (vspace : Nat) (top : Nat)
  | sel4utils_arch_init_local_context (entry_point arg0 arg1 ipc_buffer_addr stack_top : Nat)
      (err : Int) (context : seL4_UserContext)
  | seL4_TCB_WriteRegisters (service : Nat) (resume : Int) (arch_flags count : Nat)
      (regs : seL4_UserContext) (err : Int)
  | seL4_TCB_ReadRegisters (service : Nat) (suspend : Bool) (arch_flags count : Nat)
      (err : Int) (regs : seL4_UserContext)
  | malloc (size : Nat) (ptr : Nat)
  | free (ptr : Nat)
  | seL4_Recv (endpoint : Nat) (info : seL4_MessageInfo_t) (badge : Nat)
  | printf (d : Diagnostic)
deriving DecidableEq, Repr

/-- Everything `thread.c` uses and does not define: the collaborators as state
transformers over `σ`, and the constants of the build and the architecture. -/
structure Env (σ : Type) where
  /-- Width of `seL4_Word` and `uintptr_t` in bits. -/
  word_bits : Nat
  /-- The constant `seL4_PageBits`. -/
  seL4_PageBits : Nat
  /-- The constant `CONFIG_SEL4UTILS_TIMESLICE`. -/
  CONFIG_SEL4UTILS_TIMESLICE : Nat
  /-- The number `sizeof(seL4_UserContext) / sizeof(seL4_Word)`. -/
  context_words : Nat
  SEL4_PFIPC_LABEL : Nat
  SEL4_PFIPC_LENGTH : Nat
  SEL4_PFIPC_PREFETCH_FAULT : Nat
  SEL4_PFIPC_FAULT_IP : Nat
  SEL4_PFIPC_FAULT_ADDR : Nat
  SEL4_EXCEPT_IPC_LABEL : Nat
  SEL4_EXCEPT_IPC_LENGTH : Nat
  EXCEPT_IPC_SYS_MR_SYSCALL : Nat
  EXCEPT_IPC_SYS_MR_IP : Nat
  SEL4_USER_EXCEPTION_LABEL : Nat
  SEL4_USER_EXCEPTION_LENGTH : Nat
  /-- Function `vka_alloc_tcb(vka, &obj)`: the error and what it leaves in `obj`. -/
  vka_alloc_tcb : σ → Nat → vka_object_t → Int × vka_object_t × σ
  /-- Function `vspace_new_ipc_buffer(vspace, &cap)`: the address and what it leaves in `cap`. -/
  vspace_new_ipc_buffer : σ → Nat → Nat → Nat × Nat × σ
  /-- Function `sel4utils_dup_and_map(vka, vspace, cap, size_bits)`: the mapping or `0`. -/
  sel4utils_dup_and_map : σ → Nat → Nat → Nat → Nat → Nat × σ
  /-- The store `((seL4_IPCBuffer *) mapping)->userData = value`. -/
  store_userData : σ → Nat → Nat → σ
  /-- Function `sel4utils_unmap_dup(vka, vspace, mapping, size_bits)`. -/
  sel4utils_unmap_dup : σ → Nat → Nat → Nat → Nat → σ
  /-- Function `vka_alloc_sched_context(vka, &obj)`. -/
  vka_alloc_sched_context : σ → Nat → vka_object_t → Int × vka_object_t × σ
  /-- Function `simple_get_sched_ctrl(simple)`. -/
  simple_get_sched_ctrl : Nat → Nat
  /-- Function `seL4_SchedControl_Configure(sched_ctrl, sched_context, budget)`. -/
  seL4_SchedControl_Configure : σ → Nat → Nat → Nat → Int × σ
  /-- Function `vspace_get_root(vspace)`. -/
  vspace_get_root : Nat → Nat
  /-- Function `seL4_TCB_Configure`; `seL4_NoError` is `0`. -/
  seL4_TCB_Configure : σ → TCBConfigureArgs → Int × σ
  /-- Function `vspace_new_stack(vspace)`: the stack top or `0`. -/
  vspace_new_stack : σ → Nat → Nat × σ
  /-- Function `vka_free_object(vka, &obj)`. -/
  vka_free_object : σ → Nat → vka_object_t → σ
  /-- Function `vspace_free_ipc_buffer(vspace, addr)`. -/
  vspace_free_ipc_buffer : σ → Nat → Nat → σ
  /-- Function `vspace_free_stack(vspace, top)`. -/
  vspace_free_stack : σ → Nat → Nat → σ
  /-- Function `sel4utils_arch_init_local_context(entry, arg0, arg1, ipc_buffer, stack_top, &context)`:
  the error and what it leaves in `context`. -/
  sel4utils_arch_init_local_context :
    σ → Nat → Nat → Nat → Nat → Nat → seL4_UserContext → Int × seL4_UserContext × σ
  /-- Function `seL4_TCB_WriteRegisters(service, resume, arch_flags, count, &regs)`. -/
  seL4_TCB_WriteRegisters : σ → Nat → Int → Nat → Nat → seL4_UserContext → Int × σ
  /-- Function `seL4_TCB_ReadRegisters(service, suspend, arch_flags, count, &regs)`:
  the error and what it leaves in `regs`. -/
  seL4_TCB_ReadRegisters :
    σ → Nat → Bool → Nat → Nat → seL4_UserContext → Int × seL4_UserContext × σ
  /-- Function `sel4utils_get_sp(regs)`. -/
  sel4utils_get_sp : seL4_UserContext → Nat
  /-- Function `malloc(size)`: the pointer or `0`. -/
  malloc : σ → Nat → Nat × σ
  /-- Function `free(ptr)`. -/
  free : σ → Nat → σ
  /-- Function `seL4_Recv(endpoint, &badge)`: the tag and the badge. -/
  seL4_Recv : σ → Nat → seL4_MessageInfo_t × Nat × σ
  /-- Function `seL4_GetMR(i)`. -/
  seL4_GetMR : σ → Nat → Nat
  /-- Function `sel4utils_is_read_fault()`. -/
  sel4utils_is_read_fault : σ → Bool

/-- The collaborators' state together with the trace of calls made so far. -/
structure World (σ : Type) where
  st : σ
  trace : List Call

/-- A world in state `s` in which nothing has been called yet. -/
def World.init {σ : Type} (s : σ) : World σ := { st := s, trace := [] }

/-- Moves to state `s` and appends `c` to the trace. -/
def World.step {σ : Type} (w : World σ) (s : σ) (c : Call) : World σ :=
  { st := s, trace := w.trace ++ [c] }

/-! ## Thread configuration and teardown -/

/-- Function `write_ipc_buffer_user_data` (`thread.c:31-42`): maps the buffer
frame, stores `buf_loc` in its `userData` word, unmaps; `-1` when the mapping
is `NULL`. -/
def write_ipc_buffer_user_data {σ : Type} (env : Env σ) (w : World σ)
    (vka vspace ipc_buf buf_loc : Nat) : Int × World σ :=
  let m := env.sel4utils_dup_and_map w.st vka vspace ipc_buf env.seL4_PageBits
  let w1 := w.step m.2 (Call.sel4utils_dup_and_map vka vspace ipc_buf env.seL4_PageBits m.1)
  if m.1 = 0 then
    (-1, w1)
  else
    let w2 := w1.step (env.store_userData w1.st m.1 buf_loc) (Call.store_userData m.1 buf_loc)
    let w3 := w2.step (env.sel4utils_unmap_dup w2.st vka vspace m.1 env.seL4_PageBits)
      (Call.sel4utils_unmap_dup vka vspace m.1 env.seL4_PageBits)
    (0, w3)

/-- What a function working on `sel4utils_thread_t *` leaves behind: its `int`
result (`0` for the `void` teardown), the record behind the pointer, the world. -/
structure ThreadResult (σ : Type) where
  ret : Int
  thread : sel4utils_thread_t
  w : World σ

/-- Function `sel4utils_clean_up_thread` (`thread.c:149-165`): frees the TCB
object, the IPC buffer and the stack, each when its field is non-zero, then
`memset`s the record to zero. -/
def sel4utils_clean_up_thread {σ : Type} (env : Env σ) (w : World σ)
    (vka alloc : Nat) (thread : sel4utils_thread_t) : ThreadResult σ :=
  let w1 :=
    if thread.tcb.cptr ≠ 0 then
      w.step (env.vka_free_object w.st vka thread.tcb) (Call.vka_free_object vka thread.tcb)
    else w
  let w2 :=
    if thread.ipc_buffer_addr ≠ 0 then
      w1.step (env.vspace_free_ipc_buffer w1.st alloc thread.ipc_buffer_addr)
        (Call.vspace_free_ipc_buffer alloc thread.ipc_buffer_addr)
    else w1
  let w3 :=
    if thread.stack_top ≠ 0 then
      w2.step (env.vspace_free_stack w2.st alloc thread.stack_top)
        (Call.vspace_free_stack alloc thread.stack_top)
    else w2
  { ret := 0, thread := sel4utils_thread_t.zero, w := w3 }

/-- The exit `sel4utils_clean_up_thread(vka, alloc, res); return -1;`. -/
def clean_up_and_fail {σ : Type} (env : Env σ) (w : World σ)
    (vka alloc : Nat) (res : sel4utils_thread_t) : ThreadResult σ :=
  { sel4utils_clean_up_thread env w vka alloc res with ret := -1 }

/-- Lines 110-128 of `sel4utils_configure_thread_config`: the single
`seL4_TCB_Configure` invocation, then the stack allocation. -/
def configure_tcb_and_stack {σ : Type} (env : Env σ) (w : World σ)
    (vka alloc : Nat) (config : sel4utils_thread_config_t)
    (res : sel4utils_thread_t) : ThreadResult σ :=
  let null_cap_data := 0
  let prio := seL4_Prio_new config.priority config.max_priority
  let args : TCBConfigureArgs :=
    { service := res.tcb.cptr, fault_ep := config.fault_endpoint, prio := prio,
      sched_context := res.sched_context.cptr, cspace_root := config.cspace,
      cspace_root_data := config.cspace_root_data,
      vspace_root := env.vspace_get_root alloc, vspace_root_data := null_cap_data,
      buffer := res.ipc_buffer_addr, bufferFrame := res.ipc_buffer }
  let e := env.seL4_TCB_Configure w.st args
  let w1 := w.step e.2 (Call.seL4_TCB_Configure args e.1)
  if e.1 ≠ 0 then
    clean_up_and_fail env w1 vka alloc res
  else
    let k := env.vspace_new_stack w1.st alloc
    let res1 := { res with stack_top := k.1 }
    let w2 := w1.step k.2 (Call.vspace_new_stack alloc k.1)
    if res1.stack_top = 0 then
      clean_up_and_fail env w2 vka alloc res1
    else
      { ret := 0, thread := res1, w := w2 }

/-- Function `sel4utils_configure_thread_config` (`thread.c:63-129`).  The
incoming content of `*res` is overwritten by the leading `memset`. -/
def sel4utils_configure_thread_config {σ : Type} (env : Env σ) (w : World σ)
    (simple vka parent alloc : Nat) (config : sel4utils_thread_config_t)
    (_res : sel4utils_thread_t) : ThreadResult σ :=
  let res0 := sel4utils_thread_t.zero
  let a := env.vka_alloc_tcb w.st vka res0.tcb
  let res1 := { res0 with tcb := a.2.1 }
  let w1 := w.step a.2.2 (Call.vka_alloc_tcb vka a.1 a.2.1)
  if a.1 = -1 then
    clean_up_and_fail env w1 vka alloc res1
  else
    let b := env.vspace_new_ipc_buffer w1.st alloc res1.ipc_buffer
    let res2 := { res1 with ipc_buffer_addr := b.1, ipc_buffer := b.2.1 }
    let w2 := w1.step b.2.2 (Call.vspace_new_ipc_buffer alloc b.1 b.2.1)
    if res2.ipc_buffer_addr = 0 then
      { ret := -1, thread := res2, w := w2 }
    else
      let u := write_ipc_buffer_user_data env w2 vka parent res2.ipc_buffer res2.ipc_buffer_addr
      if u.1 ≠ 0 then
        { ret := -1, thread := res2, w := u.2 }
      else if config.create_sc then
        let c := env.vka_alloc_sched_context u.2.st vka res2.sched_context
        let res3 := { res2 with sched_context := c.2.1 }
        let w4 := u.2.step c.2.2 (Call.vka_alloc_sched_context vka c.1 c.2.1)
        if c.1 ≠ 0 then
          clean_up_and_fail env w4 vka alloc res3
        else
          let budget :=
            if ¬ config.custom_sched_params then env.CONFIG_SEL4UTILS_TIMESLICE
            else config.custom_budget
          let d := env.seL4_SchedControl_Configure w4.st (env.simple_get_sched_ctrl simple)
            res3.sched_context.cptr budget
          let w5 := w4.step d.2 (Call.seL4_SchedControl_Configure
            (env.simple_get_sched_ctrl simple) res3.sched_context.cptr budget d.1)
          if d.1 ≠ 0 then
            clean_up_and_fail env w5 vka alloc res3
          else
            configure_tcb_and_stack env w5 vka alloc config res3
      else
        configure_tcb_and_stack env u.2 vka alloc config res2

/-- Function `sel4utils_configure_thread` (`thread.c:44-60`): the configuration
with `max_priority = priority` and `create_sc = true`; the fields the
initializer leaves out are zero.  The parameter `priority` is a `uint8_t`:
what the caller passes arrives reduced modulo `2 ^ 8`. -/
def sel4utils_configure_thread {σ : Type} (env : Env σ) (w : World σ)
    (simple vka parent alloc fault_endpoint priority cspace cspace_root_data : Nat)
    (res : sel4utils_thread_t) : ThreadResult σ :=
  let priority := priority % 2 ^ 8
  let config : sel4utils_thread_config_t :=
    { fault_endpoint := fault_endpoint, priority := priority, max_priority := priority,
      cspace := cspace, cspace_root_data := cspace_root_data, create_sc := true,
      custom_sched_params := false, custom_budget := 0 }
  sel4utils_configure_thread_config env w simple vka parent alloc config res

/-- Lines 88-129 of `sel4utils_configure_thread_config`: the function from the
scheduling-context block on, for the record `res` and the world `w` reached there. -/
def configure_from_sched_context {σ : Type} (env : Env σ) (w : World σ)
    (simple vka alloc : Nat) (config : sel4utils_thread_config_t)
    (res : sel4utils_thread_t) : ThreadResult σ :=
  if config.create_sc then
    let c := env.vka_alloc_sched_context w.st vka res.sched_context
    let res3 := { res with sched_context := c.2.1 }
    let w4 := w.step c.2.2 (Call.vka_alloc_sched_context vka c.1 c.2.1)
    if c.1 ≠ 0 then
      clean_up_and_fail env w4 vka alloc res3
    else
      let budget :=
        if ¬ config.custom_sched_params then env.CONFIG_SEL4UTILS_TIMESLICE
        else config.custom_budget
      let d := env.seL4_SchedControl_Configure w4.st (env.simple_get_sched_ctrl simple)
        res3.sched_context.cptr budget
      let w5 := w4.step d.2 (Call.seL4_SchedControl_Configure
        (env.simple_get_sched_ctrl simple) res3.sched_context.cptr budget d.1)
      if d.1 ≠ 0 then
        clean_up_and_fail env w5 vka alloc res3
      else
        configure_tcb_and_stack env w5 vka alloc config res3
  else
    configure_tcb_and_stack env w vka alloc config res

/-- Lines 76-129 of `sel4utils_configure_thread_config`: the function from the
IPC buffer allocation on, for the record `res` and the world `w` reached there. -/
def configure_from_ipc_buffer {σ : Type} (env : Env σ) (w : World σ)
    (simple vka parent alloc : Nat) (config : sel4utils_thread_config_t)
    (res : sel4utils_thread_t) : ThreadResult σ :=
  let b := env.vspace_new_ipc_buffer w.st alloc res.ipc_buffer
  let res2 := { res with ipc_buffer_addr := b.1, ipc_buffer := b.2.1 }
  let w2 := w.step b.2.2 (Call.vspace_new_ipc_buffer alloc b.1 b.2.1)
  if res2.ipc_buffer_addr = 0 then
    { ret := -1, thread := res2, w := w2 }
  else
    let u := write_ipc_buffer_user_data env w2 vka parent res2.ipc_buffer res2.ipc_buffer_addr
    if u.1 ≠ 0 then
      { ret := -1, thread := res2, w := u.2 }
    else
      configure_from_sched_context env u.2 simple vka alloc config res2

/-! ## Starting a thread -/

/-- Function `sel4utils_start_thread` (`thread.c:131-147`).  The record behind
`thread` is only read; it is returned as found. -/
def sel4utils_start_thread {σ : Type} (env : Env σ) (w : World σ)
    (thread : sel4utils_thread_t) (entry_point arg0 arg1 : Nat) (resume : Int) :
    ThreadResult σ :=
  let context : seL4_UserContext := List.replicate env.context_words 0
  let context_size := env.context_words
  let i := env.sel4utils_arch_init_local_context w.st entry_point arg0 arg1
    thread.ipc_buffer_addr thread.stack_top context
  let w1 := w.step i.2.2 (Call.sel4utils_arch_init_local_context entry_point arg0 arg1
    thread.ipc_buffer_addr thread.stack_top i.1 i.2.1)
  if i.1 ≠ 0 then
    { ret := i.1, thread := thread, w := w1 }
  else
    let r := env.seL4_TCB_WriteRegisters w1.st thread.tcb.cptr resume 0 context_size i.2.1
    { ret := r.1, thread := thread,
      w := w1.step r.2 (Call.seL4_TCB_WriteRegisters thread.tcb.cptr resume 0 context_size i.2.1 r.1) }

/-! ## The fault monitor -/

/-- Function `sel4utils_print_fault_message` (`thread.c:167-209`).  `none` is
the abort of a failed `assert`; `ndebug` says whether the file was compiled
with `NDEBUG`, which turns every `assert` into nothing.  The `switch` is a
chain of comparisons in the order of its `case` labels. -/
def sel4utils_print_fault_message {σ : Type} (env : Env σ) (ndebug : Bool) (w : World σ)
    (tag : seL4_MessageInfo_t) (thread_name : String) : Option (World σ) :=
  if seL4_MessageInfo_get_label tag = env.SEL4_PFIPC_LABEL then
    if ¬ ndebug ∧ ¬ seL4_MessageInfo_get_length tag = env.SEL4_PFIPC_LENGTH then
      none
    else
      some (w.step w.st (Call.printf (Diagnostic.pagefault thread_name
        (env.sel4utils_is_read_fault w.st)
        (decide (env.seL4_GetMR w.st env.SEL4_PFIPC_PREFETCH_FAULT ≠ 0))
        (env.seL4_GetMR w.st env.SEL4_PFIPC_FAULT_IP)
        (env.seL4_GetMR w.st env.SEL4_PFIPC_FAULT_ADDR))))
  else if seL4_MessageInfo_get_label tag = env.SEL4_EXCEPT_IPC_LABEL then
    if ¬ ndebug ∧ ¬ seL4_MessageInfo_get_length tag = env.SEL4_EXCEPT_IPC_LENGTH then
      none
    else
      some (w.step w.st (Call.printf (Diagnostic.bad_syscall thread_name
        (env.seL4_GetMR w.st env.EXCEPT_IPC_SYS_MR_SYSCALL)
        (env.seL4_GetMR w.st env.EXCEPT_IPC_SYS_MR_IP))))
  else if seL4_MessageInfo_get_label tag = env.SEL4_USER_EXCEPTION_LABEL then
    if ¬ ndebug ∧ ¬ seL4_MessageInfo_get_length tag = env.SEL4_USER_EXCEPTION_LENGTH then
      none
    else
      some (w.step w.st (Call.printf (Diagnostic.invalid_instruction thread_name
        (env.seL4_GetMR w.st 0))))
  else
    some (w.step w.st (Call.printf (Diagnostic.unknown_fault thread_name
      (seL4_MessageInfo_get_label tag) (seL4_MessageInfo_get_length tag))))

/-- The body of the `while (1)` of `fault_handler`, run `fuel` times: print the
message for `info`, then `seL4_Recv` again, dropping what that call returns. -/
def fault_handler_loop {σ : Type} (env : Env σ) (ndebug : Bool) (name : String)
    (endpoint : Nat) (info : seL4_MessageInfo_t) : Nat → World σ → Option (World σ)
  | 0, w => some w
  | fuel + 1, w =>
    match sel4utils_print_fault_message env ndebug w info name with
    | none => none
    | some w1 =>
      let r := env.seL4_Recv w1.st endpoint
      fault_handler_loop env ndebug name endpoint info fuel
        (w1.step r.2.2 (Call.seL4_Recv endpoint r.1 r.2.1))

/-- Function `fault_handler` (`thread.c:212-226`) up to the end of the
`fuel`-th turn of its loop; the C function never returns.  `none` is the abort
of a failed `assert` in the printer. -/
def fault_handler {σ : Type} (env : Env σ) (ndebug : Bool) (fuel : Nat) (w : World σ)
    (name : String) (endpoint : Nat) : Option (World σ) :=
  let r := env.seL4_Recv w.st endpoint
  let info := r.1
  fault_handler_loop env ndebug name endpoint info fuel
    (w.step r.2.2 (Call.seL4_Recv endpoint r.1 r.2.1))

/-- The diagnostics printed so far, oldest first. -/
def diagnostics : List Call → List Diagnostic
  | [] => []
  | Call.printf d :: rest => d :: diagnostics rest
  | _ :: rest => diagnostics rest

/-- The tags received so far, oldest first. -/
def received : List Call → List seL4_MessageInfo_t
  | [] => []
  | Call.seL4_Recv _ info _ :: rest => info :: received rest
  | _ :: rest => received rest

/-- The `seL4_TCB_Configure` invocations made so far, oldest first, each with
its arguments and its result. -/
def tcb_configure_calls : List Call → List (TCBConfigureArgs × Int)
  | [] => []
  | Call.seL4_TCB_Configure args err :: rest => (args, err) :: tcb_configure_calls rest
  | _ :: rest => tcb_configure_calls rest

/-- Whether a call is one of steps 1-4 of `sel4utils_configure_thread_config`
with a result the function takes for a failure: `vka_alloc_tcb` returning `-1`,
`vspace_new_ipc_buffer` returning address `0`, `sel4utils_dup_and_map` returning
`NULL`, `vka_alloc_sched_context` or `seL4_SchedControl_Configure` returning
non-zero. -/
def failed_step : Call → Bool
  | Call.vka_alloc_tcb _ err _ => decide (err = -1)
  | Call.vspace_new_ipc_buffer _ addr _ => decide (addr = 0)
  | Call.sel4utils_dup_and_map _ _ _ _ mapping => decide (mapping = 0)
  | Call.vka_alloc_sched_context _ err _ => decide (err ≠ 0)
  | Call.seL4_SchedControl_Configure _ _ _ err => decide (err ≠ 0)
  | _ => false

/-! ## Checkpoint and restore -/

/-- The byte memory of the calling address space. -/
abbrev Mem := Nat → Nat

/-- The difference `(uintptr_t) a - (uintptr_t) b` on words of `bits` bits. -/
def uintptr_sub (bits a b : Nat) : Nat :=
  (a % 2 ^ bits + (2 ^ bits - b % 2 ^ bits)) % 2 ^ bits

/-- Function `memcpy(dst, src, n)` for regions that do not overlap (overlap is
undefined in C): byte `dst + i` becomes the old byte `src + i` for `i < n`. -/
def memcpy (mem : Mem) (dst src n : Nat) : Mem :=
  fun a => if dst ≤ a ∧ a < dst + n then mem (src + (a - dst)) else mem a

/-- The record `sel4utils_checkpoint_t`: the buffer pointer, the register
set, and the pointer to the thread record. -/
structure sel4utils_checkpoint_t where
  stack : Nat
  regs : seL4_UserContext
  thread : Nat
deriving DecidableEq, Repr

/-- What `sel4utils_checkpoint_thread` leaves behind. -/
structure CheckpointResult (σ : Type) where
  ret : Int
  checkpoint : sel4utils_checkpoint_t
  w : World σ
  mem : Mem

/-- Function `sel4utils_checkpoint_thread` (`thread.c:245-273`).  `threads`
reads the thread record behind a pointer; `checkpoint` is the record behind the
non-null pointer the `assert` asks for. -/
def sel4utils_checkpoint_thread {σ : Type} (env : Env σ) (w : World σ) (mem : Mem)
    (threads : Nat → sel4utils_thread_t) (thread : Nat)
    (checkpoint : sel4utils_checkpoint_t) (suspend : Bool) : CheckpointResult σ :=
  let r := env.seL4_TCB_ReadRegisters w.st (threads thread).tcb.cptr suspend 0
    env.context_words checkpoint.regs
  let cp1 := { checkpoint with regs := r.2.1 }
  let w1 := w.step r.2.2 (Call.seL4_TCB_ReadRegisters (threads thread).tcb.cptr suspend 0
    env.context_words r.1 r.2.1)
  if r.1 ≠ 0 then
    { ret := r.1, checkpoint := cp1, w := w1, mem := mem }
  else
    let stack_size := uintptr_sub env.word_bits (threads thread).stack_top
      (env.sel4utils_get_sp cp1.regs)
    let m := env.malloc w1.st stack_size
    let cp2 := { cp1 with stack := m.1 }
    let w2 := w1.step m.2 (Call.malloc stack_size m.1)
    if cp2.stack = 0 then
      { ret := -1, checkpoint := cp2, w := w2, mem := mem }
    else
      { ret := r.1, checkpoint := { cp2 with thread := thread }, w := w2,
        mem := memcpy mem cp2.stack (env.sel4utils_get_sp cp2.regs) stack_size }

/-- Function `sel4utils_free_checkpoint` (`thread.c:301-305`). -/
def sel4utils_free_checkpoint {σ : Type} (env : Env σ) (w : World σ)
    (checkpoint : sel4utils_checkpoint_t) : World σ :=
  w.step (env.free w.st checkpoint.stack) (Call.free checkpoint.stack)

/-- What `sel4utils_checkpoint_restore` leaves behind. -/
structure RestoreResult (σ : Type) where
  ret : Int
  w : World σ
  mem : Mem

/-- Function `sel4utils_checkpoint_restore` (`thread.c:275-299`).  The `bool`
`resume` reaches the kernel call as `1` or `0`. -/
def sel4utils_checkpoint_restore {σ : Type} (env : Env σ) (w : World σ) (mem : Mem)
    (threads : Nat → sel4utils_thread_t) (checkpoint : sel4utils_checkpoint_t)
    (free_memory resume : Bool) : RestoreResult σ :=
  let stack_size := uintptr_sub env.word_bits (threads checkpoint.thread).stack_top
    (env.sel4utils_get_sp checkpoint.regs)
  let mem1 := memcpy mem (env.sel4utils_get_sp checkpoint.regs) checkpoint.stack stack_size
  let r := env.seL4_TCB_WriteRegisters w.st (threads checkpoint.thread).tcb.cptr
    (if resume then 1 else 0) 0 env.context_words checkpoint.regs
  let w1 := w.step r.2 (Call.seL4_TCB_WriteRegisters (threads checkpoint.thread).tcb.cptr
    (if resume then 1 else 0) 0 env.context_words checkpoint.regs r.1)
  if r.1 ≠ 0 then
    { ret := r.1, w := w1, mem := mem1 }
  else
    { ret := r.1, w := if free_memory then sel4utils_free_checkpoint env w1 checkpoint else w1,
      mem := mem1 }

/-! ## A concrete allocator, address space and kernel

A small executable instance of `Env` that keeps the set of resources currently
held.  Its knobs choose what each collaborator answers, so that every path of
the functions above can be run on it. -/

/-- The state of the concrete collaborators. -/
structure SimState where
  /-- Identifiers (capabilities, addresses) of the resources currently held. -/
  held : List Nat
  /-- Messages waiting on the endpoint, oldest first. -/
  inbox : List seL4_MessageInfo_t
  /-- The message registers. -/
  mrs : List Nat
  /-- The registers of the thread behind the TCB. -/
  regs : seL4_UserContext
deriving DecidableEq, Repr

/-- What the concrete collaborators answer. -/
structure SimCfg where
  tcb_err : Int
  ipc_addr : Nat
  mapping : Nat
  sc_err : Int
  sc_cfg_err : Int
  tcb_cfg_err : Int
  stack_top : Nat
  init_err : Int
  write_err : Int
  read_err : Int
  /-- The pointer `malloc(0)` returns. -/
  malloc_zero : Nat
  /-- The pointer `malloc(n)` returns for `n > 0`. -/
  malloc_ptr : Nat
deriving DecidableEq, Repr

/-- Every collaborator succeeds. -/
def SimCfg.ok : SimCfg :=
  { tcb_err := 0, ipc_addr := 4096, mapping := 20480, sc_err := 0, sc_cfg_err := 0,
    tcb_cfg_err := 0, stack_top := 8192, init_err := 0, write_err := 0, read_err := 0,
    malloc_zero := 40960, malloc_ptr := 40960 }

/-- The capability of the TCB the concrete allocator hands out. -/
def sim_tcb : vka_object_t := { cptr := 11, ut := 1, type := 1, size_bits := 10 }

/-- The capability of the scheduling context the concrete allocator hands out. -/
def sim_sc : vka_object_t := { cptr := 12, ut := 2, type := 2, size_bits := 8 }

/-- The concrete collaborators: allocation adds the resource to `held`, release removes it. -/
def simEnv (c : SimCfg) : Env SimState :=
  { word_bits := 32
    seL4_PageBits := 12
    CONFIG_SEL4UTILS_TIMESLICE := 10
    context_words := 4
    SEL4_PFIPC_LABEL := 2
    SEL4_PFIPC_LENGTH := 4
    SEL4_PFIPC_PREFETCH_FAULT := 2
    SEL4_PFIPC_FAULT_IP := 0
    SEL4_PFIPC_FAULT_ADDR := 1
    SEL4_EXCEPT_IPC_LABEL := 3
    SEL4_EXCEPT_IPC_LENGTH := 10
    EXCEPT_IPC_SYS_MR_SYSCALL := 3
    EXCEPT_IPC_SYS_MR_IP := 2
    SEL4_USER_EXCEPTION_LABEL := 4
    SEL4_USER_EXCEPTION_LENGTH := 5
    vka_alloc_tcb := fun s _ obj =>
      if c.tcb_err = 0 then (0, sim_tcb, { s with held := sim_tcb.cptr :: s.held })
      else (c.tcb_err, obj, s)
    vspace_new_ipc_buffer := fun s _ cap =>
      if c.ipc_addr = 0 then (0, cap, s)
      else (c.ipc_addr, 13, { s with held := c.ipc_addr :: s.held })
    sel4utils_dup_and_map := fun s _ _ _ _ => (c.mapping, s)
    store_userData := fun s _ _ => s
    sel4utils_unmap_dup := fun s _ _ _ _ => s
    vka_alloc_sched_context := fun s _ obj =>
      if c.sc_err = 0 then (0, sim_sc, { s with held := sim_sc.cptr :: s.held })
      else (c.sc_err, obj, s)
    simple_get_sched_ctrl := fun simple => simple + 100
    seL4_SchedControl_Configure := fun s _ _ _ => (c.sc_cfg_err, s)
    vspace_get_root := fun vspace => vspace + 200
    seL4_TCB_Configure := fun s _ => (c.tcb_cfg_err, s)
    vspace_new_stack := fun s _ =>
      if c.stack_top = 0 then (0, s)
      else (c.stack_top, { s with held := c.stack_top :: s.held })
    vka_free_object := fun s _ obj => { s with held := s.held.erase obj.cptr }
    vspace_free_ipc_buffer := fun s _ addr => { s with held := s.held.erase addr }
    vspace_free_stack := fun s _ top => { s with held := s.held.erase top }
    sel4utils_arch_init_local_context := fun s entry arg0 arg1 _ sp context =>
      if c.init_err = 0 then (0, [entry, arg0, arg1, sp], s) else (c.init_err, context, s)
    seL4_TCB_WriteRegisters := fun s _ _ _ _ regs =>
      if c.write_err = 0 then (0, { s with regs := regs }) else (c.write_err, s)
    seL4_TCB_ReadRegisters := fun s _ _ _ _ regs =>
      if c.read_err = 0 then (0, s.regs, s) else (c.read_err, regs, s)
    sel4utils_get_sp := fun regs => regs.getD 3 0
    malloc := fun s size => (if size = 0 then c.malloc_zero else c.malloc_ptr, s)
    free := fun s _ => s
    seL4_Recv := fun s _ =>
      match s.inbox with
      | [] => ({ label := 0, capsUnwrapped := 0, extraCaps := 0, length := 0 }, 0, s)
      | m :: rest => (m, 0, { s with inbox := rest })
    seL4_GetMR := fun s i => s.mrs.getD i 0
    sel4utils_is_read_fault := fun _ => true }

/-- The concrete state in which nothing is held and nothing is waiting. -/
def SimState.empty : SimState := { held := [], inbox := [], mrs := [], regs := [] }

/-- A configuration asking for a scheduling context, with `priority > max_priority`. -/
def sim_config : sel4utils_thread_config_t :=
  { fault_endpoint := 5, priority := 200, max_priority := 100, cspace := 6,
    cspace_root_data := 7, create_sc := true, custom_sched_params := false,
    custom_budget := 0 }

/-- The name the monitor prints. -/
def monitor_name : String := "monitor"

/-- A page-fault tag of the expected length. -/
def pagefault_tag : seL4_MessageInfo_t :=
  { label := 2, capsUnwrapped := 0, extraCaps := 0, length := 4 }

/-- A page-fault tag one word longer than expected. -/
def long_pagefault_tag : seL4_MessageInfo_t :=
  { label := 2, capsUnwrapped := 0, extraCaps := 0, length := 5 }

/-- A user-exception tag of the expected length. -/
def user_exception_tag : seL4_MessageInfo_t :=
  { label := 4, capsUnwrapped := 0, extraCaps := 0, length := 5 }

/-- A user-exception tag one word shorter than expected. -/
def short_user_exception_tag : seL4_MessageInfo_t :=
  { label := 4, capsUnwrapped := 0, extraCaps := 0, length := 4 }

/-- A concrete state with a page fault, then two user exceptions waiting. -/
def sim_inbox : SimState :=
  { held := [], inbox := [pagefault_tag, user_exception_tag, user_exception_tag],
    mrs := [4660, 48879, 0, 7], regs := [] }

/-- Every thread pointer leads to a thread with the concrete TCB and stack top `164`. -/
def sim_threads : Nat → sel4utils_thread_t :=
  fun _ => { sel4utils_thread_t.zero with tcb := sim_tcb, stack_top := 164 }

/-- A concrete state whose thread has its stack pointer (register 3) at `sp`. -/
def sim_running (sp : Nat) : SimState :=
  { held := [], inbox := [], mrs := [], regs := [1, 2, 3, sp] }

/-- A memory with known content: byte `a` holds `a % 251`. -/
def sim_mem : Mem := fun a => a % 251

/-- The memory `m` after the 64 bytes of `[100, 164)` were overwritten with `0`. -/
def sim_mem_later (m : Mem) : Mem := fun a => if 100 ≤ a ∧ a < 164 then 0 else m a

/-- A checkpoint record before its first use. -/
def sim_checkpoint : sel4utils_checkpoint_t := { stack := 0, regs := [], thread := 0 }

/-- The run of `sel4utils_configure_thread_config` on the concrete collaborators
answering as `c` says: nothing held before, `simple = 1`, `vka = 2`,
`parent = 3`, `alloc = 4`, the configuration `sim_config`. -/
def sim_configure (c : SimCfg) : ThreadResult SimState :=
  sel4utils_configure_thread_config (simEnv c) (World.init SimState.empty) 1 2 3 4 sim_config
    sel4utils_thread_t.zero

/-- The teardown `sel4utils_clean_up_thread` of what `sim_configure c` built. -/
def sim_configure_then_clean_up (c : SimCfg) : ThreadResult SimState :=
  sel4utils_clean_up_thread (simEnv c) (sim_configure c).w 2 4 (sim_configure c).thread

/-- The capture `sel4utils_checkpoint_thread` on the concrete collaborators
answering as `c` says, for a thread whose stack pointer is `sp`. -/
def sim_capture (c : SimCfg) (sp : Nat) : CheckpointResult SimState :=
  sel4utils_checkpoint_thread (simEnv c) (World.init (sim_running sp)) sim_mem sim_threads 0
    sim_checkpoint false

/-! ## Teardown -/

/-- Claim C2. After `sel4utils_clean_up_thread` every field of the thread is
zero, and a second `sel4utils_clean_up_thread` right after it makes no call at
all (the trace is the same, so no `vka_free_object`, `vspace_free_ipc_buffer`
or `vspace_free_stack`) and leaves the thread and the state of the allocator
and the address space as they were. -/
theorem clean_up_thread_twice {σ : Type} (env : Env σ) (w : World σ) (vka alloc : Nat)
    (thread : sel4utils_thread_t) :
    (sel4utils_clean_up_thread env w vka alloc thread).thread = sel4utils_thread_t.zero ∧
    (sel4utils_clean_up_thread env (sel4utils_clean_up_thread env w vka alloc thread).w vka alloc
        (sel4utils_clean_up_thread env w vka alloc thread).thread).w.trace
      = (sel4utils_clean_up_thread env w vka alloc thread).w.trace ∧
    (sel4utils_clean_up_thread env (sel4utils_clean_up_thread env w vka alloc thread).w vka alloc
        (sel4utils_clean_up_thread env w vka alloc thread).thread).thread
      = (sel4utils_clean_up_thread env w vka alloc thread).thread ∧
    (sel4utils_clean_up_thread env (sel4utils_clean_up_thread env w vka alloc thread).w vka alloc
        (sel4utils_clean_up_thread env w vka alloc thread).thread).w.st
      = (sel4utils_clean_up_thread env w vka alloc thread).w.st := by
  refine ⟨rfl, ?_, rfl, ?_⟩ <;>
    simp [sel4utils_clean_up_thread, sel4utils_thread_t.zero, vka_object_t.zero]

/-- Claim C1, on the code: two runs of `sel4utils_configure_thread_config` on
the concrete collaborators that return `-1` without the symmetric teardown.
(1) The IPC buffer allocation answers `0` after the TCB was allocated: the
function returns at once, the record still carries the TCB, nothing was freed
and the TCB is still held.  (2) `seL4_TCB_Configure` is refused after a
scheduling context was allocated: the record is zeroed and the TCB and the
buffer are freed, yet the scheduling context is never freed and stays held. -/
theorem configure_failure_without_teardown :
    (sim_configure { SimCfg.ok with ipc_addr := 0 }).ret = -1 ∧
    (sim_configure { SimCfg.ok with ipc_addr := 0 }).thread
      = { sel4utils_thread_t.zero with tcb := sim_tcb } ∧
    (sim_configure { SimCfg.ok with ipc_addr := 0 }).w.trace
      = [Call.vka_alloc_tcb 2 0 sim_tcb, Call.vspace_new_ipc_buffer 4 0 0] ∧
    (sim_configure { SimCfg.ok with ipc_addr := 0 }).w.st.held = [sim_tcb.cptr] ∧
    (sim_configure { SimCfg.ok with tcb_cfg_err := 1 }).ret = -1 ∧
    (sim_configure { SimCfg.ok with tcb_cfg_err := 1 }).thread = sel4utils_thread_t.zero ∧
    (sim_configure { SimCfg.ok with tcb_cfg_err := 1 }).w.trace
      = [Call.vka_alloc_tcb 2 0 sim_tcb,
         Call.vspace_new_ipc_buffer 4 4096 13,
         Call.sel4utils_dup_and_map 2 3 13 12 20480,
         Call.store_userData 20480 4096,
         Call.sel4utils_unmap_dup 2 3 20480 12,
         Call.vka_alloc_sched_context 2 0 sim_sc,
         Call.seL4_SchedControl_Configure 101 12 10 0,
         Call.seL4_TCB_Configure
           { service := 11, fault_ep := 5, prio := { prio := 200, mcp := 100 },
             sched_context := 12, cspace_root := 6, cspace_root_data := 7,
             vspace_root := 204, vspace_root_data := 0, buffer := 4096, bufferFrame := 13 } 1,
         Call.vka_free_object 2 sim_tcb,
         Call.vspace_free_ipc_buffer 4 4096] ∧
    (sim_configure { SimCfg.ok with tcb_cfg_err := 1 }).w.st.held = [sim_sc.cptr] := by
  decide

/-- Claim C3, on the code: when `vka_alloc_tcb` returns the error `1` and
leaves the TCB field zero, `sel4utils_configure_thread_config` goes on with
every later step (the trace lists them, `seL4_TCB_Configure` on capability `0`
included) and returns `0`. -/
theorem configure_continues_after_tcb_alloc_error :
    (sim_configure { SimCfg.ok with tcb_err := 1 }).ret = 0 ∧
    (sim_configure { SimCfg.ok with tcb_err := 1 }).thread.tcb = vka_object_t.zero ∧
    (sim_configure { SimCfg.ok with tcb_err := 1 }).w.trace
      = [Call.vka_alloc_tcb 2 1 vka_object_t.zero,
         Call.vspace_new_ipc_buffer 4 4096 13,
         Call.sel4utils_dup_and_map 2 3 13 12 20480,
         Call.store_userData 20480 4096,
         Call.sel4utils_unmap_dup 2 3 20480 12,
         Call.vka_alloc_sched_context 2 0 sim_sc,
         Call.seL4_SchedControl_Configure 101 12 10 0,
         Call.seL4_TCB_Configure
           { service := 0, fault_ep := 5, prio := { prio := 200, mcp := 100 },
             sched_context := 12, cspace_root := 6, cspace_root_data := 7,
             vspace_root := 204, vspace_root_data := 0, buffer := 4096, bufferFrame := 13 } 0,
         Call.vspace_new_stack 4 8192] := by
  decide

/-- Claim C10, on the code: on the concrete collaborators, which keep the set
of held resources, a successful `sel4utils_configure_thread_config` with
`create_sc` holds the stack, the scheduling context, the buffer and the TCB,
with all four fields non-zero; after `sel4utils_clean_up_thread` all four
fields are zero, and the scheduling context is still held: the teardown made
three release calls, none of them for the scheduling context. -/
theorem teardown_keeps_sched_context :
    (sim_configure SimCfg.ok).ret = 0 ∧
    (sim_configure SimCfg.ok).thread
      = { tcb := sim_tcb, sched_context := sim_sc, stack_top := 8192, ipc_buffer := 13,
          ipc_buffer_addr := 4096 } ∧
    (sim_configure SimCfg.ok).w.st.held = [8192, sim_sc.cptr, 4096, sim_tcb.cptr] ∧
    (sim_configure_then_clean_up SimCfg.ok).thread = sel4utils_thread_t.zero ∧
    (sim_configure_then_clean_up SimCfg.ok).w.trace
      = (sim_configure SimCfg.ok).w.trace ++
        [Call.vka_free_object 2 sim_tcb, Call.vspace_free_ipc_buffer 4 4096,
         Call.vspace_free_stack 4 8192] ∧
    (sim_configure_then_clean_up SimCfg.ok).w.st.held = [sim_sc.cptr] := by
  decide

/-! ## Starting a thread -/

/-- Claim C8. `sel4utils_start_thread` first calls the encoder with the entry
point, the two arguments, the thread's buffer address and its stack top, on a
zeroed register set; say it answers the error `err` and the registers
`context`.  When `err` is non-zero, `err` is returned and the encoder call is
the only call made.  Otherwise exactly one `seL4_TCB_WriteRegisters` follows,
on the thread's TCB, with the caller's `resume`, flags `0`, the full register
count and `context`, and its result is returned.  The thread record is as
before in both cases. -/
theorem start_thread_calls {σ : Type} (env : Env σ) (w : World σ) (thread : sel4utils_thread_t)
    (entry_point arg0 arg1 : Nat) (resume : Int)
    (err : Int) (context : seL4_UserContext) (s1 : σ)
    (hinit : env.sel4utils_arch_init_local_context w.st entry_point arg0 arg1
      thread.ipc_buffer_addr thread.stack_top (List.replicate env.context_words 0)
        = (err, context, s1)) :
    (sel4utils_start_thread env w thread entry_point arg0 arg1 resume).thread = thread ∧
    (err ≠ 0 →
      (sel4utils_start_thread env w thread entry_point arg0 arg1 resume).ret = err ∧
      (sel4utils_start_thread env w thread entry_point arg0 arg1 resume).w.trace
        = w.trace ++ [Call.sel4utils_arch_init_local_context entry_point arg0 arg1
            thread.ipc_buffer_addr thread.stack_top err context]) ∧
    (err = 0 →
      (sel4utils_start_thread env w thread entry_point arg0 arg1 resume).ret
        = (env.seL4_TCB_WriteRegisters s1 thread.tcb.cptr resume 0 env.context_words
            context).1 ∧
      (sel4utils_start_thread env w thread entry_point arg0 arg1 resume).w.trace
        = w.trace ++ [Call.sel4utils_arch_init_local_context entry_point arg0 arg1
            thread.ipc_buffer_addr thread.stack_top 0 context,
          Call.seL4_TCB_WriteRegisters thread.tcb.cptr resume 0 env.context_words context
            (env.seL4_TCB_WriteRegisters s1 thread.tcb.cptr resume 0 env.context_words
              context).1]) := by
  refine ⟨?_, ?_, ?_⟩
  · unfold sel4utils_start_thread
    dsimp only
    split <;> rfl
  · intro h
    simp [sel4utils_start_thread, hinit, h, World.step]
  · intro h
    subst h
    simp [sel4utils_start_thread, hinit, World.step]

/-- Claim C8 at a concrete input: the thread built by `sim_configure`, entry
point `77`, arguments `1` and `2`, `resume = 1`, an encoder that succeeds. -/
theorem start_thread_calls_witness :
    (sel4utils_start_thread (simEnv SimCfg.ok) (World.init SimState.empty)
      (sim_configure SimCfg.ok).thread 77 1 2 1).ret = 0 ∧
    (sel4utils_start_thread (simEnv SimCfg.ok) (World.init SimState.empty)
      (sim_configure SimCfg.ok).thread 77 1 2 1).w.trace
      = [Call.sel4utils_arch_init_local_context 77 1 2 4096 8192 0 [77, 1, 2, 8192],
         Call.seL4_TCB_WriteRegisters 11 1 0 4 [77, 1, 2, 8192] 0] :=
  (start_thread_calls (simEnv SimCfg.ok) (World.init SimState.empty)
    (sim_configure SimCfg.ok).thread 77 1 2 1 0 [77, 1, 2, 8192] SimState.empty
    (by decide)).2.2 rfl

/-! ## The kernel configuration call -/

/-- The configuration calls of a concatenated trace. -/
theorem tcb_configure_calls_append (l₁ l₂ : List Call) :
    tcb_configure_calls (l₁ ++ l₂) = tcb_configure_calls l₁ ++ tcb_configure_calls l₂ := by
  induction l₁ with
  | nil => rfl
  | cons c rest ih => cases c <;> simp [tcb_configure_calls, ih]

/-- Teardown only appends to the trace, and never a configuration call. -/
theorem clean_up_thread_trace {σ : Type} (env : Env σ) (w : World σ) (vka alloc : Nat)
    (thread : sel4utils_thread_t) :
    ∃ l, (sel4utils_clean_up_thread env w vka alloc thread).w.trace = w.trace ++ l ∧
      tcb_configure_calls l = [] := by
  unfold sel4utils_clean_up_thread
  simp only [World.step]
  split_ifs <;> simp [tcb_configure_calls]

/-- The function is its first step followed by `configure_from_ipc_buffer`. -/
theorem configure_thread_config_staged {σ : Type} (env : Env σ) (w : World σ)
    (simple vka parent alloc : Nat) (config : sel4utils_thread_config_t)
    (res : sel4utils_thread_t) :
    sel4utils_configure_thread_config env w simple vka parent alloc config res =
      if (env.vka_alloc_tcb w.st vka vka_object_t.zero).1 = -1 then
        clean_up_and_fail env
          (w.step (env.vka_alloc_tcb w.st vka vka_object_t.zero).2.2
            (Call.vka_alloc_tcb vka (env.vka_alloc_tcb w.st vka vka_object_t.zero).1
              (env.vka_alloc_tcb w.st vka vka_object_t.zero).2.1)) vka alloc
          { sel4utils_thread_t.zero with tcb := (env.vka_alloc_tcb w.st vka vka_object_t.zero).2.1 }
      else
        configure_from_ipc_buffer env
          (w.step (env.vka_alloc_tcb w.st vka vka_object_t.zero).2.2
            (Call.vka_alloc_tcb vka (env.vka_alloc_tcb w.st vka vka_object_t.zero).1
              (env.vka_alloc_tcb w.st vka vka_object_t.zero).2.1)) simple vka parent alloc config
          { sel4utils_thread_t.zero with tcb := (env.vka_alloc_tcb w.st vka vka_object_t.zero).2.1 } :=
  rfl

/-- Lines 110-128 append exactly one configuration call, built from the record. -/
theorem configure_tcb_and_stack_trace {σ : Type} (env : Env σ) (w : World σ)
    (vka alloc : Nat) (config : sel4utils_thread_config_t) (res : sel4utils_thread_t) :
    ∃ l e, (configure_tcb_and_stack env w vka alloc config res).w.trace = w.trace ++ l ∧
      tcb_configure_calls l =
        [(({ service := res.tcb.cptr, fault_ep := config.fault_endpoint,
             prio := { prio := config.priority, mcp := config.max_priority },
             sched_context := res.sched_context.cptr, cspace_root := config.cspace,
             cspace_root_data := config.cspace_root_data,
             vspace_root := env.vspace_get_root alloc, vspace_root_data := 0,
             buffer := res.ipc_buffer_addr, bufferFrame := res.ipc_buffer } :
            TCBConfigureArgs), e)] ∧
      (e ≠ 0 → (configure_tcb_and_stack env w vka alloc config res).ret = -1) ∧
      ((configure_tcb_and_stack env w vka alloc config res).ret = 0 → e = 0) := by
  unfold configure_tcb_and_stack clean_up_and_fail sel4utils_clean_up_thread
  simp only [World.step, seL4_Prio_new]
  split_ifs <;>
    simp_all [tcb_configure_calls, tcb_configure_calls_append]

/-- The failure exit appends no configuration call and returns `-1`. -/
theorem clean_up_and_fail_trace {σ : Type} (env : Env σ) (w : World σ) (vka alloc : Nat)
    (thread : sel4utils_thread_t) :
    ∃ l, (clean_up_and_fail env w vka alloc thread).w.trace = w.trace ++ l ∧
      tcb_configure_calls l = [] ∧ (clean_up_and_fail env w vka alloc thread).ret = -1 := by
  obtain ⟨l, hl, hn⟩ := clean_up_thread_trace env w vka alloc thread
  exact ⟨l, hl, hn, rfl⟩

/-- Lines 88-129 either fail before the configuration call or make exactly one. -/
theorem configure_from_sched_context_trace {σ : Type} (env : Env σ) (w : World σ)
    (simple vka alloc : Nat) (config : sel4utils_thread_config_t) (res : sel4utils_thread_t) :
    ∃ l, (configure_from_sched_context env w simple vka alloc config res).w.trace = w.trace ++ l ∧
      ((tcb_configure_calls l = [] ∧
          (configure_from_sched_context env w simple vka alloc config res).ret = -1) ∨
        ∃ sc e,
          ((config.create_sc = true ∧ ∃ e2, Call.vka_alloc_sched_context vka e2 sc ∈ l) ∨
            (config.create_sc = false ∧ sc = res.sched_context)) ∧
          tcb_configure_calls l =
            [(({ service := res.tcb.cptr, fault_ep := config.fault_endpoint,
                 prio := { prio := config.priority, mcp := config.max_priority },
                 sched_context := sc.cptr, cspace_root := config.cspace,
                 cspace_root_data := config.cspace_root_data,
                 vspace_root := env.vspace_get_root alloc, vspace_root_data := 0,
                 buffer := res.ipc_buffer_addr, bufferFrame := res.ipc_buffer } :
                TCBConfigureArgs), e)] ∧
          (e ≠ 0 → (configure_from_sched_context env w simple vka alloc config res).ret = -1) ∧
          ((configure_from_sched_context env w simple vka alloc config res).ret = 0 → e = 0)) := by
  unfold configure_from_sched_context
  by_cases hsc : config.create_sc = true
  · rw [if_pos hsc]
    dsimp only
    generalize env.vka_alloc_sched_context w.st vka res.sched_context = c
    generalize (if ¬ config.custom_sched_params = true then env.CONFIG_SEL4UTILS_TIMESLICE
      else config.custom_budget) = budget
    split_ifs with hc hd
    · obtain ⟨l, hl, hn, hr⟩ := clean_up_and_fail_trace env
        (w.step c.2.2 (Call.vka_alloc_sched_context vka c.1 c.2.1)) vka alloc
        { res with sched_context := c.2.1 }
      refine ⟨Call.vka_alloc_sched_context vka c.1 c.2.1 :: l, ?_, Or.inl ⟨?_, hr⟩⟩
      · simpa [World.step] using hl
      · simp [tcb_configure_calls, hn]
    · obtain ⟨l, hl, hn, hr⟩ := clean_up_and_fail_trace env
        ((w.step c.2.2 (Call.vka_alloc_sched_context vka c.1 c.2.1)).step
          (env.seL4_SchedControl_Configure c.2.2 (env.simple_get_sched_ctrl simple)
            c.2.1.cptr budget).2
          (Call.seL4_SchedControl_Configure (env.simple_get_sched_ctrl simple) c.2.1.cptr budget
            (env.seL4_SchedControl_Configure c.2.2 (env.simple_get_sched_ctrl simple)
              c.2.1.cptr budget).1)) vka alloc
        { res with sched_context := c.2.1 }
      refine ⟨Call.vka_alloc_sched_context vka c.1 c.2.1 ::
        Call.seL4_SchedControl_Configure (env.simple_get_sched_ctrl simple) c.2.1.cptr budget
            (env.seL4_SchedControl_Configure c.2.2 (env.simple_get_sched_ctrl simple)
              c.2.1.cptr budget).1 :: l, ?_, Or.inl ⟨?_, hr⟩⟩
      · simpa [World.step] using hl
      · simp [tcb_configure_calls, hn]
    · obtain ⟨l, e, hl, hn, h1, h2⟩ := configure_tcb_and_stack_trace env
        ((w.step c.2.2 (Call.vka_alloc_sched_context vka c.1 c.2.1)).step
          (env.seL4_SchedControl_Configure c.2.2 (env.simple_get_sched_ctrl simple)
            c.2.1.cptr budget).2
          (Call.seL4_SchedControl_Configure (env.simple_get_sched_ctrl simple) c.2.1.cptr budget
            (env.seL4_SchedControl_Configure c.2.2 (env.simple_get_sched_ctrl simple)
              c.2.1.cptr budget).1)) vka alloc config
        { res with sched_context := c.2.1 }
      refine ⟨Call.vka_alloc_sched_context vka c.1 c.2.1 ::
        Call.seL4_SchedControl_Configure (env.simple_get_sched_ctrl simple) c.2.1.cptr budget
            (env.seL4_SchedControl_Configure c.2.2 (env.simple_get_sched_ctrl simple)
              c.2.1.cptr budget).1 :: l, ?_,
        Or.inr ⟨c.2.1, e, Or.inl ⟨hsc, c.1, by simp⟩, ?_, h1, h2⟩⟩
      · simpa [World.step] using hl
      · simp [tcb_configure_calls, hn]
  · rw [if_neg hsc]
    obtain ⟨l, e, hl, hn, h1, h2⟩ := configure_tcb_and_stack_trace env w vka alloc config res
    exact ⟨l, hl, Or.inr ⟨res.sched_context, e, Or.inr ⟨by simpa using hsc, rfl⟩, hn, h1, h2⟩⟩

/-- Writing the user-data word appends no configuration call. -/
theorem write_ipc_buffer_user_data_trace {σ : Type} (env : Env σ) (w : World σ)
    (vka vspace ipc_buf buf_loc : Nat) :
    ∃ l, (write_ipc_buffer_user_data env w vka vspace ipc_buf buf_loc).2.trace = w.trace ++ l ∧
      tcb_configure_calls l = [] := by
  unfold write_ipc_buffer_user_data
  simp only [World.step]
  split_ifs <;> simp [tcb_configure_calls]

/-- Lines 76-129 either fail before the configuration call or make exactly one. -/
theorem configure_from_ipc_buffer_trace {σ : Type} (env : Env σ) (w : World σ)
    (simple vka parent alloc : Nat) (config : sel4utils_thread_config_t)
    (res : sel4utils_thread_t) :
    ∃ l, (configure_from_ipc_buffer env w simple vka parent alloc config res).w.trace
        = w.trace ++ l ∧
      ((tcb_configure_calls l = [] ∧
          (configure_from_ipc_buffer env w simple vka parent alloc config res).ret = -1) ∨
        ∃ addr cap sc e,
          Call.vspace_new_ipc_buffer alloc addr cap ∈ l ∧
          ((config.create_sc = true ∧ ∃ e2, Call.vka_alloc_sched_context vka e2 sc ∈ l) ∨
            (config.create_sc = false ∧ sc = res.sched_context)) ∧
          tcb_configure_calls l =
            [(({ service := res.tcb.cptr, fault_ep := config.fault_endpoint,
                 prio := { prio := config.priority, mcp := config.max_priority },
                 sched_context := sc.cptr, cspace_root := config.cspace,
                 cspace_root_data := config.cspace_root_data,
                 vspace_root := env.vspace_get_root alloc, vspace_root_data := 0,
                 buffer := addr, bufferFrame := cap } :
                TCBConfigureArgs), e)] ∧
          (e ≠ 0 →
            (configure_from_ipc_buffer env w simple vka parent alloc config res).ret = -1) ∧
          ((configure_from_ipc_buffer env w simple vka parent alloc config res).ret = 0 →
            e = 0)) := by
  unfold configure_from_ipc_buffer
  dsimp only
  generalize env.vspace_new_ipc_buffer w.st alloc res.ipc_buffer = b
  obtain ⟨lu, hlu, hnu⟩ := write_ipc_buffer_user_data_trace env
    (w.step b.2.2 (Call.vspace_new_ipc_buffer alloc b.1 b.2.1)) vka parent b.2.1 b.1
  split_ifs with hb hu
  · exact ⟨[Call.vspace_new_ipc_buffer alloc b.1 b.2.1], by simp [World.step],
      Or.inl ⟨by simp [tcb_configure_calls], rfl⟩⟩
  · refine ⟨Call.vspace_new_ipc_buffer alloc b.1 b.2.1 :: lu, ?_, Or.inl ⟨?_, rfl⟩⟩
    · simpa [World.step] using hlu
    · simp [tcb_configure_calls, hnu]
  · generalize write_ipc_buffer_user_data env
      (w.step b.2.2 (Call.vspace_new_ipc_buffer alloc b.1 b.2.1)) vka parent b.2.1 b.1 = u at *
    obtain ⟨l, hl, h⟩ := configure_from_sched_context_trace env u.2 simple vka alloc config
      { res with ipc_buffer_addr := b.1, ipc_buffer := b.2.1 }
    refine ⟨Call.vspace_new_ipc_buffer alloc b.1 b.2.1 :: (lu ++ l), ?_, ?_⟩
    · rw [hl, hlu]; simp [World.step]
    · rcases h with ⟨hn, hr⟩ | ⟨sc, e, hsc, hn, h1, h2⟩
      · exact Or.inl ⟨by simp [tcb_configure_calls, tcb_configure_calls_append, hnu, hn], hr⟩
      · refine Or.inr ⟨b.1, b.2.1, sc, e, by simp, ?_, ?_, h1, h2⟩
        · rcases hsc with ⟨hc, e2, hm⟩ | hc
          · exact Or.inl ⟨hc, e2, by simp [hm]⟩
          · exact Or.inr hc
        · simpa [tcb_configure_calls, tcb_configure_calls_append, hnu] using hn

/-- The whole function either fails before the configuration call or makes exactly one. -/
theorem configure_thread_config_trace {σ : Type} (env : Env σ) (w : World σ)
    (simple vka parent alloc : Nat) (config : sel4utils_thread_config_t)
    (res : sel4utils_thread_t) :
    ∃ l, (sel4utils_configure_thread_config env w simple vka parent alloc config res).w.trace
        = w.trace ++ l ∧
      ((tcb_configure_calls l = [] ∧
          (sel4utils_configure_thread_config env w simple vka parent alloc config res).ret = -1) ∨
        ∃ e1 tcb addr cap sc e,
          Call.vka_alloc_tcb vka e1 tcb ∈ l ∧
          Call.vspace_new_ipc_buffer alloc addr cap ∈ l ∧
          ((config.create_sc = true ∧ ∃ e2, Call.vka_alloc_sched_context vka e2 sc ∈ l) ∨
            (config.create_sc = false ∧ sc = vka_object_t.zero)) ∧
          tcb_configure_calls l =
            [(({ service := tcb.cptr, fault_ep := config.fault_endpoint,
                 prio := { prio := config.priority, mcp := config.max_priority },
                 sched_context := sc.cptr, cspace_root := config.cspace,
                 cspace_root_data := config.cspace_root_data,
                 vspace_root := env.vspace_get_root alloc, vspace_root_data := 0,
                 buffer := addr, bufferFrame := cap } :
                TCBConfigureArgs), e)] ∧
          (e ≠ 0 →
            (sel4utils_configure_thread_config env w simple vka parent alloc config res).ret
              = -1) ∧
          ((sel4utils_configure_thread_config env w simple vka parent alloc config res).ret = 0 →
            e = 0)) := by
  rw [configure_thread_config_staged]
  generalize env.vka_alloc_tcb w.st vka vka_object_t.zero = a
  split_ifs with ha
  · obtain ⟨l, hl, hn, hr⟩ := clean_up_and_fail_trace env
      (w.step a.2.2 (Call.vka_alloc_tcb vka a.1 a.2.1)) vka alloc
      { sel4utils_thread_t.zero with tcb := a.2.1 }
    refine ⟨Call.vka_alloc_tcb vka a.1 a.2.1 :: l, ?_, Or.inl ⟨?_, hr⟩⟩
    · simpa [World.step] using hl
    · simp [tcb_configure_calls, hn]
  · obtain ⟨l, hl, h⟩ := configure_from_ipc_buffer_trace env
      (w.step a.2.2 (Call.vka_alloc_tcb vka a.1 a.2.1)) simple vka parent alloc config
      { sel4utils_thread_t.zero with tcb := a.2.1 }
    refine ⟨Call.vka_alloc_tcb vka a.1 a.2.1 :: l, ?_, ?_⟩
    · simpa [World.step] using hl
    · rcases h with ⟨hn, hr⟩ | ⟨addr, cap, sc, e, hm, hsc, hn, h1, h2⟩
      · exact Or.inl ⟨by simp [tcb_configure_calls, hn], hr⟩
      · refine Or.inr ⟨a.1, a.2.1, addr, cap, sc, e, by simp, by simp [hm], ?_, ?_, h1, h2⟩
        · rcases hsc with ⟨hc, e2, hm2⟩ | hc
          · exact Or.inl ⟨hc, e2, by simp [hm2]⟩
          · exact Or.inr hc
        · simpa [tcb_configure_calls] using hn

/-- Lines 88-129 make the configuration call unless a step reported failure. -/
theorem configure_from_sched_context_progress {σ : Type} (env : Env σ) (w : World σ)
    (simple vka alloc : Nat) (config : sel4utils_thread_config_t) (res : sel4utils_thread_t) :
    ∃ l, (configure_from_sched_context env w simple vka alloc config res).w.trace = w.trace ++ l ∧
      (tcb_configure_calls l ≠ [] ∨ ∃ c ∈ l, failed_step c = true) := by
  unfold configure_from_sched_context
  by_cases hsc : config.create_sc = true
  · rw [if_pos hsc]
    dsimp only
    generalize env.vka_alloc_sched_context w.st vka res.sched_context = c
    generalize (if ¬ config.custom_sched_params = true then env.CONFIG_SEL4UTILS_TIMESLICE
      else config.custom_budget) = budget
    split_ifs with hc hd
    · obtain ⟨l, hl, -, -⟩ := clean_up_and_fail_trace env
        (w.step c.2.2 (Call.vka_alloc_sched_context vka c.1 c.2.1)) vka alloc
        { res with sched_context := c.2.1 }
      refine ⟨Call.vka_alloc_sched_context vka c.1 c.2.1 :: l, ?_,
        Or.inr ⟨Call.vka_alloc_sched_context vka c.1 c.2.1, by simp, ?_⟩⟩
      · simpa [World.step] using hl
      · simpa [failed_step] using hc
    · obtain ⟨l, hl, -, -⟩ := clean_up_and_fail_trace env
        ((w.step c.2.2 (Call.vka_alloc_sched_context vka c.1 c.2.1)).step
          (env.seL4_SchedControl_Configure c.2.2 (env.simple_get_sched_ctrl simple)
            c.2.1.cptr budget).2
          (Call.seL4_SchedControl_Configure (env.simple_get_sched_ctrl simple) c.2.1.cptr budget
            (env.seL4_SchedControl_Configure c.2.2 (env.simple_get_sched_ctrl simple)
              c.2.1.cptr budget).1)) vka alloc
        { res with sched_context := c.2.1 }
      refine ⟨Call.vka_alloc_sched_context vka c.1 c.2.1 ::
        Call.seL4_SchedControl_Configure (env.simple_get_sched_ctrl simple) c.2.1.cptr budget
          (env.seL4_SchedControl_Configure c.2.2 (env.simple_get_sched_ctrl simple)
            c.2.1.cptr budget).1 :: l, ?_,
        Or.inr ⟨Call.seL4_SchedControl_Configure (env.simple_get_sched_ctrl simple) c.2.1.cptr budget
          (env.seL4_SchedControl_Configure c.2.2 (env.simple_get_sched_ctrl simple)
            c.2.1.cptr budget).1, by simp, ?_⟩⟩
      · simpa [World.step] using hl
      · simpa [failed_step, World.step] using hd
    · obtain ⟨l, e, hl, hn, -, -⟩ := configure_tcb_and_stack_trace env
        ((w.step c.2.2 (Call.vka_alloc_sched_context vka c.1 c.2.1)).step
          (env.seL4_SchedControl_Configure c.2.2 (env.simple_get_sched_ctrl simple)
            c.2.1.cptr budget).2
          (Call.seL4_SchedControl_Configure (env.simple_get_sched_ctrl simple) c.2.1.cptr budget
            (env.seL4_SchedControl_Configure c.2.2 (env.simple_get_sched_ctrl simple)
              c.2.1.cptr budget).1)) vka alloc config
        { res with sched_context := c.2.1 }
      refine ⟨Call.vka_alloc_sched_context vka c.1 c.2.1 ::
        Call.seL4_SchedControl_Configure (env.simple_get_sched_ctrl simple) c.2.1.cptr budget
          (env.seL4_SchedControl_Configure c.2.2 (env.simple_get_sched_ctrl simple)
            c.2.1.cptr budget).1 :: l, ?_, Or.inl ?_⟩
      · simpa [World.step] using hl
      · simp [tcb_configure_calls, hn]
  · rw [if_neg hsc]
    obtain ⟨l, e, hl, hn, -, -⟩ := configure_tcb_and_stack_trace env w vka alloc config res
    exact ⟨l, hl, Or.inl (by simp [hn])⟩

/-- Writing the user-data word fails only on a `NULL` mapping, which the trace records. -/
theorem write_ipc_buffer_user_data_progress {σ : Type} (env : Env σ) (w : World σ)
    (vka vspace ipc_buf buf_loc : Nat) :
    ∃ l, (write_ipc_buffer_user_data env w vka vspace ipc_buf buf_loc).2.trace = w.trace ++ l ∧
      ((write_ipc_buffer_user_data env w vka vspace ipc_buf buf_loc).1 ≠ 0 →
        ∃ c ∈ l, failed_step c = true) := by
  unfold write_ipc_buffer_user_data
  simp only [World.step]
  split_ifs with h
  · exact ⟨[Call.sel4utils_dup_and_map vka vspace ipc_buf env.seL4_PageBits
      (env.sel4utils_dup_and_map w.st vka vspace ipc_buf env.seL4_PageBits).1], by simp,
      fun _ => ⟨_, List.mem_singleton.mpr rfl, by simpa [failed_step] using h⟩⟩
  · exact ⟨[Call.sel4utils_dup_and_map vka vspace ipc_buf env.seL4_PageBits
        (env.sel4utils_dup_and_map w.st vka vspace ipc_buf env.seL4_PageBits).1,
      Call.store_userData (env.sel4utils_dup_and_map w.st vka vspace ipc_buf env.seL4_PageBits).1
        buf_loc,
      Call.sel4utils_unmap_dup vka vspace
        (env.sel4utils_dup_and_map w.st vka vspace ipc_buf env.seL4_PageBits).1
        env.seL4_PageBits], by simp, fun h0 => absurd rfl h0⟩

/-- Lines 76-129 make the configuration call unless a step reported failure. -/
theorem configure_from_ipc_buffer_progress {σ : Type} (env : Env σ) (w : World σ)
    (simple vka parent alloc : Nat) (config : sel4utils_thread_config_t)
    (res : sel4utils_thread_t) :
    ∃ l, (configure_from_ipc_buffer env w simple vka parent alloc config res).w.trace
        = w.trace ++ l ∧
      (tcb_configure_calls l ≠ [] ∨ ∃ c ∈ l, failed_step c = true) := by
  unfold configure_from_ipc_buffer
  dsimp only
  generalize env.vspace_new_ipc_buffer w.st alloc res.ipc_buffer = b
  obtain ⟨lu, hlu, hfu⟩ := write_ipc_buffer_user_data_progress env
    (w.step b.2.2 (Call.vspace_new_ipc_buffer alloc b.1 b.2.1)) vka parent b.2.1 b.1
  split_ifs with hb hu
  · exact ⟨[Call.vspace_new_ipc_buffer alloc b.1 b.2.1], by simp [World.step],
      Or.inr ⟨_, List.mem_singleton.mpr rfl, by simpa [failed_step] using hb⟩⟩
  · obtain ⟨c, hc, hf⟩ := hfu hu
    refine ⟨Call.vspace_new_ipc_buffer alloc b.1 b.2.1 :: lu, ?_,
      Or.inr ⟨c, List.mem_cons_of_mem _ hc, hf⟩⟩
    simpa [World.step] using hlu
  · generalize write_ipc_buffer_user_data env
      (w.step b.2.2 (Call.vspace_new_ipc_buffer alloc b.1 b.2.1)) vka parent b.2.1 b.1 = u at *
    obtain ⟨l, hl, h⟩ := configure_from_sched_context_progress env u.2 simple vka alloc config
      { res with ipc_buffer_addr := b.1, ipc_buffer := b.2.1 }
    refine ⟨Call.vspace_new_ipc_buffer alloc b.1 b.2.1 :: (lu ++ l), ?_, ?_⟩
    · rw [hl, hlu]; simp [World.step]
    · rcases h with hn | ⟨c, hc, hf⟩
      · refine Or.inl ?_
        intro h0
        apply hn
        have h1 : tcb_configure_calls lu ++ tcb_configure_calls l = [] := by
          simpa [tcb_configure_calls, tcb_configure_calls_append] using h0
        exact (List.append_eq_nil.mp h1).2
      · exact Or.inr ⟨c, List.mem_cons_of_mem _ (List.mem_append_right _ hc), hf⟩

/-- The whole function makes the configuration call unless a step reported failure. -/
theorem configure_thread_config_progress {σ : Type} (env : Env σ) (w : World σ)
    (simple vka parent alloc : Nat) (config : sel4utils_thread_config_t)
    (res : sel4utils_thread_t) :
    ∃ l, (sel4utils_configure_thread_config env w simple vka parent alloc config res).w.trace
        = w.trace ++ l ∧
      (tcb_configure_calls l ≠ [] ∨ ∃ c ∈ l, failed_step c = true) := by
  rw [configure_thread_config_staged]
  generalize env.vka_alloc_tcb w.st vka vka_object_t.zero = a
  split_ifs with ha
  · obtain ⟨l, hl, -, -⟩ := clean_up_and_fail_trace env
      (w.step a.2.2 (Call.vka_alloc_tcb vka a.1 a.2.1)) vka alloc
      { sel4utils_thread_t.zero with tcb := a.2.1 }
    refine ⟨Call.vka_alloc_tcb vka a.1 a.2.1 :: l, ?_,
      Or.inr ⟨Call.vka_alloc_tcb vka a.1 a.2.1, by simp, ?_⟩⟩
    · simpa [World.step] using hl
    · simpa [failed_step] using ha
  · obtain ⟨l, hl, h⟩ := configure_from_ipc_buffer_progress env
      (w.step a.2.2 (Call.vka_alloc_tcb vka a.1 a.2.1)) simple vka parent alloc config
      { sel4utils_thread_t.zero with tcb := a.2.1 }
    refine ⟨Call.vka_alloc_tcb vka a.1 a.2.1 :: l, ?_, ?_⟩
    · simpa [World.step] using hl
    · rcases h with hn | ⟨c, hc, hf⟩
      · exact Or.inl (by simpa [tcb_configure_calls] using hn)
      · exact Or.inr ⟨c, List.mem_cons_of_mem _ hc, hf⟩

/-- Claim C7, as amended. Started on an empty trace,
`sel4utils_configure_thread_config` reaches step 5 whenever none of its calls
of steps 1-4 reported a failure (`failed_step`), and then it makes exactly one
`seL4_TCB_Configure` call; it never makes more than one.  The arguments of the
call are: the capability of the TCB that `vka_alloc_tcb` left in the record,
`config.fault_endpoint`, the pair `(config.priority, config.max_priority)` as
given, the capability of the scheduling context that
`vka_alloc_sched_context` left in the record (zero when `create_sc` is off),
`config.cspace`, `config.cspace_root_data`, the root of the address space
`alloc` (not of `parent`), guard data `0`, and the buffer address and buffer
capability that `vspace_new_ipc_buffer` returned; and when the call returns
non-zero the function returns `-1`.  A run that returns `0` has made the call,
with result `0`. -/
theorem configure_tcb_configure_call {σ : Type} (env : Env σ) (s : σ)
    (simple vka parent alloc : Nat) (config : sel4utils_thread_config_t)
    (res : sel4utils_thread_t) :
    ((∀ c ∈ (sel4utils_configure_thread_config env (World.init s)
          simple vka parent alloc config res).w.trace, failed_step c = false) →
      ∃ c, tcb_configure_calls (sel4utils_configure_thread_config env (World.init s)
          simple vka parent alloc config res).w.trace = [c]) ∧
    (∀ c ∈ tcb_configure_calls (sel4utils_configure_thread_config env (World.init s)
          simple vka parent alloc config res).w.trace,
      tcb_configure_calls (sel4utils_configure_thread_config env (World.init s)
          simple vka parent alloc config res).w.trace = [c] ∧
      (∃ e1 tcb addr cap sc,
        Call.vka_alloc_tcb vka e1 tcb ∈ (sel4utils_configure_thread_config env (World.init s)
          simple vka parent alloc config res).w.trace ∧
        Call.vspace_new_ipc_buffer alloc addr cap ∈ (sel4utils_configure_thread_config env (World.init s)
          simple vka parent alloc config res).w.trace ∧
        ((config.create_sc = true ∧ ∃ e2, Call.vka_alloc_sched_context vka e2 sc ∈
            (sel4utils_configure_thread_config env (World.init s)
          simple vka parent alloc config res).w.trace) ∨
          (config.create_sc = false ∧ sc = vka_object_t.zero)) ∧
        c.1 = { service := tcb.cptr, fault_ep := config.fault_endpoint,
                prio := { prio := config.priority, mcp := config.max_priority },
                sched_context := sc.cptr, cspace_root := config.cspace,
                cspace_root_data := config.cspace_root_data,
                vspace_root := env.vspace_get_root alloc, vspace_root_data := 0,
                buffer := addr, bufferFrame := cap }) ∧
      (c.2 ≠ 0 → (sel4utils_configure_thread_config env (World.init s)
          simple vka parent alloc config res).ret = -1)) ∧
    ((sel4utils_configure_thread_config env (World.init s)
          simple vka parent alloc config res).ret = 0 →
      ∃ args, tcb_configure_calls (sel4utils_configure_thread_config env (World.init s)
          simple vka parent alloc config res).w.trace = [(args, 0)]) := by
  obtain ⟨l, hl, h⟩ := configure_thread_config_trace env (World.init s) simple vka parent alloc
    config res
  obtain ⟨l2, hl2, hp⟩ := configure_thread_config_progress env (World.init s) simple vka parent
    alloc config res
  have hl1 : (sel4utils_configure_thread_config env (World.init s)
          simple vka parent alloc config res).w.trace = l := by
    simpa [World.init] using hl
  have hl3 : l2 = l := by
    rw [← hl1]
    simpa [World.init] using hl2.symm
  subst hl3
  rw [hl1]
  rcases h with ⟨hn, hr⟩ | ⟨e1, tcb, addr, cap, sc, e, hm1, hm2, hsc, hn, h1, h2⟩
  · refine ⟨?_, ?_, ?_⟩
    · intro hok
      rcases hp with hne | ⟨c, hc, hf⟩
      · exact absurd hn hne
      · rw [hok c hc] at hf
        cases hf
    · intro c hc
      rw [hn] at hc
      cases hc
    · intro h0
      rw [hr] at h0
      cases h0
  · refine ⟨fun _ => ⟨_, hn⟩, ?_, ?_⟩
    · intro c hc
      rw [hn] at hc
      obtain rfl : c = _ := List.mem_singleton.mp hc
      exact ⟨hn, ⟨e1, tcb, addr, cap, sc, hm1, hm2, hsc, rfl⟩, h1⟩
    · intro h0
      have he := h2 h0
      subst he
      exact ⟨_, hn⟩

/-- Claim C7, the amended statement at a concrete input: on the concrete
collaborators no step fails, so the call is made, once. -/
theorem configure_tcb_configure_call_witness :
    ∃ c, tcb_configure_calls (sel4utils_configure_thread_config (simEnv SimCfg.ok)
      (World.init SimState.empty) 1 2 3 4 sim_config sel4utils_thread_t.zero).w.trace = [c] :=
  (configure_tcb_configure_call (simEnv SimCfg.ok) SimState.empty 1 2 3 4 sim_config
    sel4utils_thread_t.zero).1 (by decide)

/-- Claim C7 as stated fails: on the concrete collaborators, with `parent = 3`
and `alloc = 4`, the one `seL4_TCB_Configure` call carries the root `204` of
`alloc`, while the root of `parent` is `203`. -/
theorem tcb_configure_root_is_not_parent :
    tcb_configure_calls (sim_configure SimCfg.ok).w.trace
      = [({ service := 11, fault_ep := 5, prio := { prio := 200, mcp := 100 },
            sched_context := 12, cspace_root := 6, cspace_root_data := 7,
            vspace_root := 204, vspace_root_data := 0, buffer := 4096, bufferFrame := 13 }, 0)] ∧
    (simEnv SimCfg.ok).vspace_get_root 3 = 203 ∧
    ¬ (∀ c ∈ tcb_configure_calls (sim_configure SimCfg.ok).w.trace,
      c.1.vspace_root = (simEnv SimCfg.ok).vspace_get_root 3) := by
  decide

/-! ## The fault monitor -/

/-- Claim C6, as amended. Take the cases of the `switch` in their order.
(1) For a tag whose length is the expected one of the case its label selects,
and for any tag when the file is compiled with `NDEBUG`,
`sel4utils_print_fault_message` returns normally, leaves the collaborators'
state alone and prints exactly one diagnostic: a page fault for the page-fault
label, a bad system call for the exception label, an invalid instruction for
the user-exception label, and otherwise the unknown-fault line with the tag's
label and length.  (2) With assertions enabled, every tag whose label selects
one of the three fault cases and whose length is not the expected one of that
case ends in the failed `assert`: the function does not return and prints
nothing. -/
theorem print_fault_message_one_diagnostic {σ : Type} (env : Env σ) (ndebug : Bool)
    (w : World σ) (tag : seL4_MessageInfo_t) (thread_name : String) :
    ((ndebug = true ∨
      ((tag.label = env.SEL4_PFIPC_LABEL → tag.length = env.SEL4_PFIPC_LENGTH) ∧
       (tag.label ≠ env.SEL4_PFIPC_LABEL → tag.label = env.SEL4_EXCEPT_IPC_LABEL →
          tag.length = env.SEL4_EXCEPT_IPC_LENGTH) ∧
       (tag.label ≠ env.SEL4_PFIPC_LABEL → tag.label ≠ env.SEL4_EXCEPT_IPC_LABEL →
          tag.label = env.SEL4_USER_EXCEPTION_LABEL →
          tag.length = env.SEL4_USER_EXCEPTION_LENGTH))) →
      ∃ d, sel4utils_print_fault_message env ndebug w tag thread_name
          = some { st := w.st, trace := w.trace ++ [Call.printf d] } ∧
        (tag.label = env.SEL4_PFIPC_LABEL →
          ∃ r p pc va, d = Diagnostic.pagefault thread_name r p pc va) ∧
        (tag.label ≠ env.SEL4_PFIPC_LABEL → tag.label = env.SEL4_EXCEPT_IPC_LABEL →
          ∃ scno pc, d = Diagnostic.bad_syscall thread_name scno pc) ∧
        (tag.label ≠ env.SEL4_PFIPC_LABEL → tag.label ≠ env.SEL4_EXCEPT_IPC_LABEL →
          tag.label = env.SEL4_USER_EXCEPTION_LABEL →
          ∃ pc, d = Diagnostic.invalid_instruction thread_name pc) ∧
        (tag.label ≠ env.SEL4_PFIPC_LABEL → tag.label ≠ env.SEL4_EXCEPT_IPC_LABEL →
          tag.label ≠ env.SEL4_USER_EXCEPTION_LABEL →
          d = Diagnostic.unknown_fault thread_name tag.label tag.length)) ∧
    (ndebug = false →
      (tag.label = env.SEL4_PFIPC_LABEL → tag.length ≠ env.SEL4_PFIPC_LENGTH →
        sel4utils_print_fault_message env ndebug w tag thread_name = none) ∧
      (tag.label ≠ env.SEL4_PFIPC_LABEL → tag.label = env.SEL4_EXCEPT_IPC_LABEL →
        tag.length ≠ env.SEL4_EXCEPT_IPC_LENGTH →
        sel4utils_print_fault_message env ndebug w tag thread_name = none) ∧
      (tag.label ≠ env.SEL4_PFIPC_LABEL → tag.label ≠ env.SEL4_EXCEPT_IPC_LABEL →
        tag.label = env.SEL4_USER_EXCEPTION_LABEL →
        tag.length ≠ env.SEL4_USER_EXCEPTION_LENGTH →
        sel4utils_print_fault_message env ndebug w tag thread_name = none)) := by
  unfold sel4utils_print_fault_message seL4_MessageInfo_get_label seL4_MessageInfo_get_length
  simp only [World.step]
  refine ⟨?_, ?_⟩
  · intro h
    by_cases h1 : tag.label = env.SEL4_PFIPC_LABEL
    · have hok : ¬ (¬ ndebug = true ∧ ¬ tag.length = env.SEL4_PFIPC_LENGTH) := by
        rcases h with h | h
        · simp [h]
        · simp [h.1 h1]
      rw [if_pos h1, if_neg hok]
      exact ⟨_, rfl, fun _ => ⟨_, _, _, _, rfl⟩, fun hn => absurd h1 hn,
        fun hn => absurd h1 hn, fun hn => absurd h1 hn⟩
    · rw [if_neg h1]
      by_cases h2 : tag.label = env.SEL4_EXCEPT_IPC_LABEL
      · have hok : ¬ (¬ ndebug = true ∧ ¬ tag.length = env.SEL4_EXCEPT_IPC_LENGTH) := by
          rcases h with h | h
          · simp [h]
          · simp [h.2.1 h1 h2]
        rw [if_pos h2, if_neg hok]
        exact ⟨_, rfl, fun hp => absurd hp h1, fun _ _ => ⟨_, _, rfl⟩,
          fun _ hn => absurd h2 hn, fun _ hn => absurd h2 hn⟩
      · rw [if_neg h2]
        by_cases h3 : tag.label = env.SEL4_USER_EXCEPTION_LABEL
        · have hok : ¬ (¬ ndebug = true ∧ ¬ tag.length = env.SEL4_USER_EXCEPTION_LENGTH) := by
            rcases h with h | h
            · simp [h]
            · simp [h.2.2 h1 h2 h3]
          rw [if_pos h3, if_neg hok]
          exact ⟨_, rfl, fun hp => absurd hp h1, fun _ hp => absurd hp h2,
            fun _ _ _ => ⟨_, rfl⟩, fun _ _ hn => absurd h3 hn⟩
        · rw [if_neg h3]
          exact ⟨_, rfl, fun hp => absurd hp h1, fun _ hp => absurd hp h2,
            fun _ _ hp => absurd hp h3, fun _ _ _ => rfl⟩
  · intro hnd
    subst hnd
    refine ⟨?_, ?_, ?_⟩
    · intro h1 hlen
      rw [if_pos h1, if_pos ⟨by simp, hlen⟩]
    · intro h1 h2 hlen
      rw [if_neg h1, if_pos h2, if_pos ⟨by simp, hlen⟩]
    · intro h1 h2 h3 hlen
      rw [if_neg h1, if_neg h2, if_pos h3, if_pos ⟨by simp, hlen⟩]

/-- Claim C6, the amended statement at two concrete inputs, assertions
enabled: a page-fault tag of the expected length is printed as a page fault,
and a user-exception tag of length `4` instead of `5` ends in the `assert`. -/
theorem print_fault_message_one_diagnostic_witness :
    (∃ d, sel4utils_print_fault_message (simEnv SimCfg.ok) false (World.init sim_inbox)
        pagefault_tag monitor_name
        = some { st := sim_inbox, trace := [Call.printf d] } ∧
      ∃ r p pc va, d = Diagnostic.pagefault monitor_name r p pc va) ∧
    sel4utils_print_fault_message (simEnv SimCfg.ok) false (World.init sim_inbox)
      short_user_exception_tag monitor_name = none :=
  ⟨((print_fault_message_one_diagnostic (simEnv SimCfg.ok) false (World.init sim_inbox)
      pagefault_tag monitor_name).1 (Or.inr (by decide))).imp
      (fun _ h => ⟨h.1, h.2.1 rfl⟩),
   ((print_fault_message_one_diagnostic (simEnv SimCfg.ok) false (World.init sim_inbox)
      short_user_exception_tag monitor_name).2 rfl).2.2 (by decide) (by decide) rfl
      (by decide)⟩

/-- Claim C6 as stated fails: with assertions enabled, a tag with the
page-fault label and length `5` instead of `4` ends in the failed `assert`;
nothing is printed. -/
theorem print_fault_message_length_assert :
    long_pagefault_tag.label = (simEnv SimCfg.ok).SEL4_PFIPC_LABEL ∧
    long_pagefault_tag.length ≠ (simEnv SimCfg.ok).SEL4_PFIPC_LENGTH ∧
    (sel4utils_print_fault_message (simEnv SimCfg.ok) false (World.init sim_inbox)
      long_pagefault_tag monitor_name).isNone = true := by
  decide

/-- Claim C9, on the code: the endpoint delivers a page fault, then a user
exception.  After two turns of the loop `fault_handler` has received all three
waiting tags and printed the page-fault line twice: the second diagnostic
decodes the first tag again, not the second notification, whose decoding is
the invalid-instruction line. -/
theorem fault_handler_prints_first_tag_again :
    (fault_handler (simEnv SimCfg.ok) false 2 (World.init sim_inbox) monitor_name 9).map
        (fun w => received w.trace)
      = some [pagefault_tag, user_exception_tag, user_exception_tag] ∧
    (fault_handler (simEnv SimCfg.ok) false 2 (World.init sim_inbox) monitor_name 9).map
        (fun w => diagnostics w.trace)
      = some [Diagnostic.pagefault monitor_name true false 4660 48879,
              Diagnostic.pagefault monitor_name true false 4660 48879] ∧
    (sel4utils_print_fault_message (simEnv SimCfg.ok) false (World.init sim_inbox)
        user_exception_tag monitor_name).map (fun w => diagnostics w.trace)
      = some [Diagnostic.invalid_instruction monitor_name 4660] := by
  decide

/-! ## Checkpoint and restore -/

/-- The word difference of a pointer with itself is zero. -/
theorem uintptr_sub_self (bits a : Nat) : uintptr_sub bits a a = 0 := by
  unfold uintptr_sub
  have hpos : 0 < 2 ^ bits := Nat.two_pow_pos bits
  have hlt : a % 2 ^ bits < 2 ^ bits := Nat.mod_lt _ hpos
  have h : a % 2 ^ bits + (2 ^ bits - a % 2 ^ bits) = 2 ^ bits := by omega
  rw [h, Nat.mod_self]

/-- Copying zero bytes changes nothing. -/
theorem memcpy_zero (mem : Mem) (dst src : Nat) : memcpy mem dst src 0 = mem := by
  funext a
  simp [memcpy]

/-- The memory a restore leaves: one copy from the buffer to the stack pointer. -/
theorem checkpoint_restore_mem {σ : Type} (env : Env σ) (w2 : World σ) (mem2 : Mem)
    (threads : Nat → sel4utils_thread_t) (cp : sel4utils_checkpoint_t)
    (free_memory resume : Bool) :
    (sel4utils_checkpoint_restore env w2 mem2 threads cp free_memory resume).mem =
      memcpy mem2 (env.sel4utils_get_sp cp.regs) cp.stack
        (uintptr_sub env.word_bits (threads cp.thread).stack_top
          (env.sel4utils_get_sp cp.regs)) := by
  unfold sel4utils_checkpoint_restore
  dsimp only
  by_cases h : (env.seL4_TCB_WriteRegisters w2.st (threads cp.thread).tcb.cptr
      (if resume then 1 else 0) 0 env.context_words cp.regs).1 ≠ 0
  · rw [if_pos h]
  · rw [if_neg h]

/-- A restore returns what its register write returned. -/
theorem checkpoint_restore_ret {σ : Type} (env : Env σ) (w2 : World σ) (mem2 : Mem)
    (threads : Nat → sel4utils_thread_t) (cp : sel4utils_checkpoint_t)
    (free_memory resume : Bool) :
    (sel4utils_checkpoint_restore env w2 mem2 threads cp free_memory resume).ret =
      (env.seL4_TCB_WriteRegisters w2.st (threads cp.thread).tcb.cptr
        (if resume then 1 else 0) 0 env.context_words cp.regs).1 := by
  unfold sel4utils_checkpoint_restore
  dsimp only
  by_cases h : (env.seL4_TCB_WriteRegisters w2.st (threads cp.thread).tcb.cptr
      (if resume then 1 else 0) 0 env.context_words cp.regs).1 ≠ 0
  · rw [if_pos h]
  · rw [if_neg h]

/-- Claim C5, as amended. Let the register read succeed with registers
`regs` whose stack pointer equals `stack_top`, and let the zero-byte `malloc`
return `ptr`; in both cases `sel4utils_checkpoint_thread` has asked `malloc`
for `0` bytes and copied nothing (the memory is as before).
(1) When `ptr` is non-null it returns `0` and the checkpoint holds `ptr`,
`regs` and the thread; `sel4utils_checkpoint_restore` of this checkpoint then
changes no byte of any memory it is run on and returns the result of its
`seL4_TCB_WriteRegisters`, so `0` when the write succeeds.
(2) When `ptr` is null it reports a failed allocation: it returns `-1`. -/
theorem zero_length_checkpoint {σ : Type} (env : Env σ) (w : World σ) (mem : Mem)
    (threads : Nat → sel4utils_thread_t) (thread : Nat) (checkpoint : sel4utils_checkpoint_t)
    (suspend : Bool) (w2 : World σ) (mem2 : Mem) (free_memory resume : Bool)
    (cap : CheckpointResult σ) (regs : seL4_UserContext) (s1 s2 : σ) (ptr : Nat)
    (hcap : sel4utils_checkpoint_thread env w mem threads thread checkpoint suspend = cap)
    (hread : env.seL4_TCB_ReadRegisters w.st (threads thread).tcb.cptr suspend 0
      env.context_words checkpoint.regs = (0, regs, s1))
    (hsp : env.sel4utils_get_sp regs = (threads thread).stack_top)
    (hmalloc : env.malloc s1 0 = (ptr, s2)) :
    cap.mem = mem ∧
    cap.w.trace = w.trace ++
      [Call.seL4_TCB_ReadRegisters (threads thread).tcb.cptr suspend 0 env.context_words 0 regs,
       Call.malloc 0 ptr] ∧
    (ptr ≠ 0 →
      cap.ret = 0 ∧
      cap.checkpoint = { stack := ptr, regs := regs, thread := thread } ∧
      (sel4utils_checkpoint_restore env w2 mem2 threads cap.checkpoint free_memory resume).mem
        = mem2 ∧
      (sel4utils_checkpoint_restore env w2 mem2 threads cap.checkpoint free_memory resume).ret
        = (env.seL4_TCB_WriteRegisters w2.st (threads thread).tcb.cptr
            (if resume then 1 else 0) 0 env.context_words regs).1) ∧
    (ptr = 0 → cap.ret = -1) := by
  have hsize : uintptr_sub env.word_bits (threads thread).stack_top
      (env.sel4utils_get_sp regs) = 0 := by
    rw [hsp]; exact uintptr_sub_self _ _
  have hval : cap =
      if ptr = 0 then
        { ret := -1, checkpoint := { stack := ptr, regs := regs, thread := checkpoint.thread },
          w := { st := s2,
                 trace := w.trace ++
                  [Call.seL4_TCB_ReadRegisters (threads thread).tcb.cptr suspend 0
                      env.context_words 0 regs,
                   Call.malloc 0 ptr] },
          mem := mem }
      else
        { ret := 0, checkpoint := { stack := ptr, regs := regs, thread := thread },
          w := { st := s2,
                 trace := w.trace ++
                  [Call.seL4_TCB_ReadRegisters (threads thread).tcb.cptr suspend 0
                      env.context_words 0 regs,
                   Call.malloc 0 ptr] },
          mem := mem } := by
    rw [← hcap]
    unfold sel4utils_checkpoint_thread
    dsimp only [World.step]
    rw [hread]
    dsimp only
    rw [hsize, hmalloc]
    by_cases hptr : ptr = 0
    · simp [hptr]
    · simp [hptr, memcpy_zero]
  rw [hval]
  by_cases hptr : ptr = 0
  · rw [if_pos hptr]
    exact ⟨rfl, rfl, fun h => absurd hptr h, fun _ => rfl⟩
  · rw [if_neg hptr]
    refine ⟨rfl, rfl, fun _ => ⟨rfl, rfl, ?_, ?_⟩, fun h => absurd h hptr⟩
    · rw [checkpoint_restore_mem]
      dsimp only
      rw [hsize, memcpy_zero]
    · rw [checkpoint_restore_ret]

/-- Claim C5, the amended statement at two concrete inputs, stack pointer and
stack top both `164`: with a zero-byte `malloc` that returns `40960` the
capture succeeds and a restore into a memory that has changed since leaves it
alone; with a zero-byte `malloc` that returns the null pointer the capture
returns `-1`. -/
theorem zero_length_checkpoint_witness :
    ((sim_capture SimCfg.ok 164).ret = 0 ∧
      (sim_capture SimCfg.ok 164).checkpoint
        = { stack := 40960, regs := [1, 2, 3, 164], thread := 0 } ∧
      (sel4utils_checkpoint_restore (simEnv SimCfg.ok) (World.init (sim_running 0))
        (sim_mem_later sim_mem) sim_threads (sim_capture SimCfg.ok 164).checkpoint false
        true).mem = sim_mem_later sim_mem ∧
      (sel4utils_checkpoint_restore (simEnv SimCfg.ok) (World.init (sim_running 0))
        (sim_mem_later sim_mem) sim_threads (sim_capture SimCfg.ok 164).checkpoint false
        true).ret
        = ((simEnv SimCfg.ok).seL4_TCB_WriteRegisters (World.init (sim_running 0)).st
            (sim_threads 0).tcb.cptr (if true then 1 else 0) 0
            (simEnv SimCfg.ok).context_words [1, 2, 3, 164]).1) ∧
    (sim_capture { SimCfg.ok with malloc_zero := 0 } 164).ret = -1 :=
  ⟨(zero_length_checkpoint (simEnv SimCfg.ok) (World.init (sim_running 164)) sim_mem
      sim_threads 0 sim_checkpoint false (World.init (sim_running 0)) (sim_mem_later sim_mem)
      false true (sim_capture SimCfg.ok 164) [1, 2, 3, 164] (sim_running 164) (sim_running 164)
      40960 rfl (by decide) (by decide) (by decide)).2.2.1 (by decide),
   (zero_length_checkpoint (simEnv { SimCfg.ok with malloc_zero := 0 })
      (World.init (sim_running 164)) sim_mem sim_threads 0 sim_checkpoint false
      (World.init (sim_running 0)) sim_mem false true
      (sim_capture { SimCfg.ok with malloc_zero := 0 } 164) [1, 2, 3, 164] (sim_running 164)
      (sim_running 164) 0 rfl (by decide) (by decide) (by decide)).2.2.2 rfl⟩

/-- Claim C5 as stated fails: the register read succeeds and the stack pointer
read equals `stack_top`, but the zero-byte `malloc` returns the null pointer;
`sel4utils_checkpoint_thread` takes that for a failed allocation and returns `-1`. -/
theorem zero_length_checkpoint_null_malloc :
    (simEnv { SimCfg.ok with malloc_zero := 0 }).seL4_TCB_ReadRegisters
      (World.init (sim_running 164)).st (sim_threads 0).tcb.cptr false 0 4 sim_checkpoint.regs
      = (0, [1, 2, 3, 164], sim_running 164) ∧
    (simEnv { SimCfg.ok with malloc_zero := 0 }).sel4utils_get_sp [1, 2, 3, 164]
      = (sim_threads 0).stack_top ∧
    (sim_capture { SimCfg.ok with malloc_zero := 0 } 164).ret = -1 ∧
    (sim_capture { SimCfg.ok with malloc_zero := 0 } 164).w.trace
      = [Call.seL4_TCB_ReadRegisters 11 false 0 4 0 [1, 2, 3, 164], Call.malloc 0 0] := by
  decide

end Sel4Utils
